import Mathlib

/-!
# serial: the unix implementation (`src/impl/unix.cc`)

A shallow embedding of `Serial::SerialImpl` and the properties of its read
engine, its port configurator and its handle lifecycle.

Conventions of the embedding.

* The object is the record `SerialImpl`; a member function is a function that
  takes the object and the operating-system side (`Os`) and gives back both,
  with what the call produced (`Res`).
* The operating system is the control block of the device (`Os.termios`) and
  the log of the primitives invoked so far (`Os.calls`).  What a primitive
  answers is not computed: it is an argument of the member function making
  the call (`ReconfAnswers`, `OpenAnswer`, `SelectAnswer`, and plain integers).
* A `throw` is the outcome `Outcome.threw`; a call that needs more answers of
  the operating system than were supplied is `Outcome.pending`.
* Flag words are natural numbers; `x |= m` is `x ||| m` and
  `x &= (unsigned long) ~m` is `x &&& compl_ul m`.
* `size_t` counts are natural numbers.  `bytes_read < size` holds before every
  low-level read and a byte count returned by `::read` is below `2^63`, so
  the sum formed at line 469 is below `2^64` for every buffer an object can
  hold (`size < 2^63`) and does not wrap.
* The platform constants of `<termios.h>`, `<errno.h>` and `<sys/ioctl.h>`
  and the conditional-compilation switches are the fields of `Platform`.
* The library functions `cfsetispeed`, `cfsetospeed` and `cfsetspeed` act on
  the `struct termios` in memory; they are modelled for glibc (which rewrites
  the speed field of `c_cflag` and the mark `IBAUD0` of `c_iflag`) and for
  BSD libc (which assigns `c_ispeed` and `c_ospeed`).
-/

namespace Serial

/-! ## Exceptions -/

/-- Classes of the exceptions thrown in unix.cc. -/
inductive ExnClass
  | invalid_argument
  | SerialExecption
  | PortNotOpenedException
  | IOException
deriving DecidableEq, Repr

/-- An exception object: `str cls what` is `cls (what)`, `errno n` is
`IOException (errno)` thrown with `errno = n`. -/
inductive Exn
  | str (cls : ExnClass) (what : String)
  | errno (n : Int)
deriving DecidableEq, Repr

/-- Exception class of an exception object. -/
def Exn.cls : Exn → ExnClass
  | .str c _ => c
  | .errno _ => .IOException

/-- How a call ends. -/
inductive Outcome (α : Type)
  | returned (a : α)
  | threw (e : Exn)
  | pending
deriving DecidableEq, Repr

/-! ## Line configuration types (serial.h) -/

/-- Modelled from the spec: the enumeration `bytesize_t` of serial.h, which is
not among the sources: "byte size: enum 5,6,7,8".  An object of an enumeration
type can hold a value that names no enumerator; that is `unlisted`. -/
inductive bytesize_t
  | FIVEBITS
  | SIXBITS
  | SEVENBITS
  | EIGHTBITS
  | unlisted (raw : Int)
deriving DecidableEq, Repr

/-- Modelled from the spec: the enumeration `parity_t` of serial.h, which is
not among the sources: "parity: enum none,odd,even,mark,space". -/
inductive parity_t
  | PARITY_NONE
  | PARITY_ODD
  | PARITY_EVEN
  | PARITY_MARK
  | PARITY_SPACE
  | unlisted (raw : Int)
deriving DecidableEq, Repr

/-- Modelled from the spec: the enumeration `stopbits_t` of serial.h, which is
not among the sources: "stop bits: enum one, one-and-a-half, two". -/
inductive stopbits_t
  | STOPBITS_ONE
  | STOPBITS_ONE_POINT_FIVE
  | STOPBITS_TWO
  | unlisted (raw : Int)
deriving DecidableEq, Repr

/-- Modelled from the spec: the type `flowcontrol_t` of serial.h, which is not
among the sources: "flow control: software (xon/xoff): bool, hardware
(rts/cts): bool". -/
structure flowcontrol_t where
  software : Bool
  hardware : Bool
deriving DecidableEq, Repr

/-! ## Platform -/

/-- Which of the platform branches of unix.cc is compiled. -/
inductive OsKind
  | linux
  | apple
  | other
deriving DecidableEq, Repr

/-- Which C library implements `cfsetispeed`, `cfsetospeed` and `cfsetspeed`:
glibc on Linux keeps the speed in `c_cflag` (and the mark `IBAUD0` in
`c_iflag`); BSD libc (FreeBSD, macOS) keeps it in `c_ispeed` and `c_ospeed`
only. -/
inductive Libc
  | glibc
  | bsd
deriving DecidableEq, Repr

/-- Constants of the system headers and conditional-compilation switches.
An `Option` field is a name that the platform may leave undefined. -/
structure Platform where
  kind : OsKind
  libc : Libc
  BSD_SOURCE : Bool
  -- glibc only: the speed field of `c_cflag`, the mark of an input speed 0
  -- in `c_iflag`, and the bounds of the range test on a speed
  CBAUD : Nat
  CBAUDEX : Nat
  IBAUD0 : Nat
  B57600 : Nat
  MAX_BAUD : Nat
  CLOCAL : Nat
  CREAD : Nat
  CSIZE : Nat
  CS5 : Nat
  CS6 : Nat
  CS7 : Nat
  CS8 : Nat
  CSTOPB : Nat
  PARENB : Nat
  PARODD : Nat
  -- the hardware flow-control flag, `CRTSCTS` or else `CNEW_RTSCTS`; a
  -- platform with neither does not build
  CRTSCTS : Nat
  ICANON : Nat
  ECHO : Nat
  ECHOE : Nat
  ECHOK : Nat
  ECHONL : Nat
  ISIG : Nat
  IEXTEN : Nat
  OPOST : Nat
  INLCR : Nat
  IGNCR : Nat
  ICRNL : Nat
  IGNBRK : Nat
  INPCK : Nat
  ISTRIP : Nat
  IXON : Nat
  IXOFF : Nat
  IUCLC : Option Nat
  PARMRK : Option Nat
  IXANY : Option Nat
  VMIN : Nat
  VTIME : Nat
  -- the speed constant `B<n>`, when the platform defines it
  B : Nat → Option Nat
  EINTR : Int
  ENFILE : Int
  EMFILE : Int
  TIOCM_RTS : Int
  TIOCM_DTR : Int
  TIOCM_CTS : Int
  TIOCM_DSR : Int
  TIOCM_RI : Int
  TIOCM_CD : Int

/-- Speed constants of Linux (asm-generic/termbits.h, bits/termios-baud.h). -/
def linuxB : Nat → Option Nat
  | 0 => some 0o0
  | 50 => some 0o1
  | 75 => some 0o2
  | 110 => some 0o3
  | 134 => some 0o4
  | 150 => some 0o5
  | 200 => some 0o6
  | 300 => some 0o7
  | 600 => some 0o10
  | 1200 => some 0o11
  | 1800 => some 0o12
  | 2400 => some 0o13
  | 4800 => some 0o14
  | 9600 => some 0o15
  | 19200 => some 0o16
  | 38400 => some 0o17
  | 57600 => some 0o10001
  | 115200 => some 0o10002
  | 230400 => some 0o10003
  | 460800 => some 0o10004
  | 500000 => some 0o10005
  | 576000 => some 0o10006
  | 921600 => some 0o10007
  | 1000000 => some 0o10010
  | 1152000 => some 0o10011
  | 1500000 => some 0o10012
  | 2000000 => some 0o10013
  | 2500000 => some 0o10014
  | 3000000 => some 0o10015
  | 3500000 => some 0o10016
  | 4000000 => some 0o10017
  | _ => none

/-- The constants of Linux with glibc (asm-generic/termbits.h, errno-base.h,
ioctls.h; `IBAUD0` and `__MAX_BAUD` from glibc). -/
def linux : Platform where
  kind := .linux
  libc := .glibc
  BSD_SOURCE := false
  CBAUD := 0o10017
  CBAUDEX := 0o10000
  IBAUD0 := 0o20000000000
  B57600 := 0o10001
  MAX_BAUD := 0o10017
  CLOCAL := 0o4000
  CREAD := 0o200
  CSIZE := 0o60
  CS5 := 0o0
  CS6 := 0o20
  CS7 := 0o40
  CS8 := 0o60
  CSTOPB := 0o100
  PARENB := 0o400
  PARODD := 0o1000
  CRTSCTS := 0o20000000000
  ICANON := 0o2
  ECHO := 0o10
  ECHOE := 0o20
  ECHOK := 0o40
  ECHONL := 0o100
  ISIG := 0o1
  IEXTEN := 0o100000
  OPOST := 0o1
  INLCR := 0o100
  IGNCR := 0o200
  ICRNL := 0o400
  IGNBRK := 0o1
  INPCK := 0o20
  ISTRIP := 0o40
  IXON := 0o2000
  IXOFF := 0o10000
  IUCLC := some 0o1000
  PARMRK := some 0o10
  IXANY := some 0o4000
  VMIN := 6
  VTIME := 5
  B := linuxB
  EINTR := 4
  ENFILE := 23
  EMFILE := 24
  TIOCM_RTS := 0x004
  TIOCM_DTR := 0x002
  TIOCM_CTS := 0x020
  TIOCM_DSR := 0x100
  TIOCM_RI := 0x080
  TIOCM_CD := 0x040

/-! ## The control block -/

/-- The control block `struct termios`: the four flag words, the control
characters, and the members `c_ispeed` and `c_ospeed`. -/
structure Termios where
  c_iflag : Nat
  c_oflag : Nat
  c_cflag : Nat
  c_lflag : Nat
  c_cc : List Nat
  c_ispeed : Nat
  c_ospeed : Nat
deriving DecidableEq, Repr

/-- Largest `unsigned long`. -/
def ULONG_MAX : Nat := 2 ^ 64 - 1

/-- The mask `(unsigned long) ~m`. -/
def compl_ul (m : Nat) : Nat := ULONG_MAX ^^^ m

/-- The update `x |= m`. -/
def set_bits (x m : Nat) : Nat := x ||| m

/-- The update `x &= (unsigned long) ~m`. -/
def clear_bits (x m : Nat) : Nat := x &&& compl_ul m

/-- Largest `unsigned int`. -/
def UINT_MAX : Nat := 2 ^ 32 - 1

/-- The mask `~m` taken in `unsigned int`, the type of `tcflag_t` and
`speed_t` in glibc. -/
def compl_u (m : Nat) : Nat := UINT_MAX ^^^ m

/-- The range test of glibc's `cfsetispeed` and `cfsetospeed`:
`(speed & ~CBAUD) != 0 && (speed < B57600 || speed > __MAX_BAUD)`, on which
they return -1 and change nothing. -/
def glibc_speed_rejected (p : Platform) (speed : Nat) : Bool :=
  decide (speed &&& compl_u p.CBAUD ≠ 0) &&
    (decide (speed < p.B57600) || decide (speed > p.MAX_BAUD))

/-- The update `x &= (unsigned long) ~m` under `#ifdef m`. -/
def clear_bits_ifdef (x : Nat) : Option Nat → Nat
  | some m => clear_bits x m
  | none => x

/-! ## The operating-system side -/

/-- The value of a `struct timeval`. -/
structure timeval where
  tv_sec : Int
  tv_usec : Int
deriving DecidableEq, Repr

/-- The value of a `struct timespec`. -/
structure timespec where
  tv_sec : Int
  tv_nsec : Int
deriving DecidableEq, Repr

/-- An invocation of a primitive of the operating system, with its arguments
(and, for `::read`, the count it returned). -/
inductive OsCall
  | os_open (path : String)
  | os_close (fd : Int)
  | tcgetattr (fd : Int)
  | tcsetattr (fd : Int) (options : Termios)
  | ioctl_IOSSIOSPEED (fd : Int) (new_baud : Int)
  | ioctl_TIOCGSERIAL (fd : Int)
  | ioctl_TIOCSSERIAL (fd : Int) (custom_divisor : Nat)
  | ioctl_TIOCINQ (fd : Int)
  | get_time_now
  | select (fd : Int) (tv : timeval)
  | os_read (fd : Int) (count : Nat) (ret : Int)
  | os_write (fd : Int) (data : List Nat)
  | tcdrain (fd : Int)
  | tcflush_in (fd : Int)
  | tcflush_out (fd : Int)
  | tcsendbreak (fd : Int) (duration : Int)
  | ioctl_TIOCSBRK (fd : Int)
  | ioctl_TIOCCBRK (fd : Int)
  | ioctl_TIOCMBIS (fd : Int) (bits : Int)
  | ioctl_TIOCMBIC (fd : Int) (bits : Int)
  | ioctl_TIOCMGET (fd : Int)
deriving DecidableEq, Repr

/-- The operating-system side: the control block of the device and the
primitives invoked so far, oldest first. -/
structure Os where
  termios : Termios
  calls : List OsCall
deriving DecidableEq, Repr

/-- Record an invocation. -/
def Os.log (os : Os) (c : OsCall) : Os :=
  { os with calls := os.calls ++ [c] }

/-! ## The object -/

/-- The data members of `Serial::SerialImpl` (the two mutexes apart). -/
structure SerialImpl where
  port_ : String
  fd_ : Int
  is_open_ : Bool
  xonxoff_ : Bool
  rtscts_ : Bool
  timeout_ : Int
  baudrate_ : Nat
  parity_ : parity_t
  bytesize_ : bytesize_t
  stopbits_ : stopbits_t
  flowcontrol_ : flowcontrol_t
deriving DecidableEq, Repr

/-- What a member function leaves behind: the object, the operating-system
side, and how the call ended. -/
structure Res (α : Type) where
  self : SerialImpl
  os : Os
  out : Outcome α
deriving DecidableEq, Repr

/-! ## Port configurator: `reconfigurePort` (lines 101-336) -/

/-- What the operating system answers during one `reconfigurePort`. -/
structure ReconfAnswers where
  tcgetattr_ret : Int
  baud_base : Nat
  ioctl_ret : Int
  errno : Int
  tcsetattr_ret : Int
deriving DecidableEq, Repr

/-- Lines 117-129: raw mode, no echo, binary. -/
def raw_mode (p : Platform) (options : Termios) : Termios :=
  let options := { options with c_cflag := set_bits options.c_cflag (p.CLOCAL ||| p.CREAD) }
  let options := { options with
    c_lflag := clear_bits options.c_lflag
      (p.ICANON ||| p.ECHO ||| p.ECHOE ||| p.ECHOK ||| p.ECHONL ||| p.ISIG ||| p.IEXTEN) }
  let options := { options with c_oflag := clear_bits options.c_oflag p.OPOST }
  let options := { options with
    c_iflag := clear_bits options.c_iflag (p.INLCR ||| p.IGNCR ||| p.ICRNL ||| p.IGNBRK) }
  let options := { options with c_iflag := clear_bits_ifdef options.c_iflag p.IUCLC }
  { options with c_iflag := clear_bits_ifdef options.c_iflag p.PARMRK }

/-- The `case` labels of `switch (baudrate_)`, lines 136-219. -/
def standard_rates : List Nat :=
  [0, 50, 75, 110, 134, 150, 200, 300, 600, 1200, 1800, 2400, 4800, 7200, 9600,
   14400, 19200, 28800, 57600, 76800, 38400, 115200, 128000, 153600, 230400,
   256000, 460800, 921600]

/-- The speed chosen by `switch (baudrate_)`: `some B<n>` when the rate has a
`case` label whose constant the platform defines, `none` for `default`. -/
def standard_baud (p : Platform) (baudrate : Nat) : Option Nat :=
  if baudrate ∈ standard_rates then p.B baudrate else none

/-- The library function `cfsetispeed`, whose result the code does not look
at.  It is not part of the repository.  BSD libc (termios.c of FreeBSD and
macOS): `t->c_ispeed = speed`.  glibc (sysdeps/unix/sysv/linux/speed.c): a
speed that fails the range test leaves `*termios_p` alone; otherwise
`c_ispeed = speed`, and for speed 0 `c_iflag |= IBAUD0`, else
`c_iflag &= ~IBAUD0`, `c_cflag &= ~(CBAUD | CBAUDEX)`, `c_cflag |= speed`. -/
def cfsetispeed (p : Platform) (t : Termios) (speed : Nat) : Termios :=
  match p.libc with
  | .bsd => { t with c_ispeed := speed }
  | .glibc =>
    if glibc_speed_rejected p speed then
      t
    else
      let t := { t with c_ispeed := speed }
      if speed = 0 then
        { t with c_iflag := t.c_iflag ||| p.IBAUD0 }
      else
        let t := { t with c_iflag := t.c_iflag &&& compl_u p.IBAUD0 }
        let t := { t with c_cflag := t.c_cflag &&& compl_u (p.CBAUD ||| p.CBAUDEX) }
        { t with c_cflag := t.c_cflag ||| speed }

/-- The library function `cfsetospeed`, whose result the code does not look
at.  BSD libc: `t->c_ospeed = speed`.  glibc: a speed that fails the range
test leaves `*termios_p` alone; otherwise `c_ospeed = speed`,
`c_cflag &= ~(CBAUD | CBAUDEX)`, `c_cflag |= speed`. -/
def cfsetospeed (p : Platform) (t : Termios) (speed : Nat) : Termios :=
  match p.libc with
  | .bsd => { t with c_ospeed := speed }
  | .glibc =>
    if glibc_speed_rejected p speed then
      t
    else
      let t := { t with c_ospeed := speed }
      let t := { t with c_cflag := t.c_cflag &&& compl_u (p.CBAUD ||| p.CBAUDEX) }
      { t with c_cflag := t.c_cflag ||| speed }

/-- The rates of the table `speeds` of glibc's termios/cfsetspeed.c, in its
order (1200 stands twice); the entry of a rate is compiled in when the
platform defines the constant `B<n>`. -/
def glibc_speed_rates : List Nat :=
  [0, 50, 75, 110, 134, 150, 200, 300, 600, 1200, 1200, 1800, 2400, 4800, 9600, 19200,
   38400, 57600, 76800, 115200, 153600, 230400, 307200, 460800, 500000, 576000, 921600,
   1000000, 1152000, 1500000, 2000000, 2500000, 3000000, 3500000, 4000000]

/-- The loop of glibc's `cfsetspeed` over its table: the first entry whose
constant or whose rate is `speed` gives the constant to set; no entry, no
change (`EINVAL`). -/
def glibc_find_speed (p : Platform) (speed : Nat) : List Nat → Option Nat
  | [] => none
  | n :: rest =>
    match p.B n with
    | none => glibc_find_speed p speed rest
    | some b =>
      if speed = b then some speed
      else if speed = n then some b
      else glibc_find_speed p speed rest

/-- The library function `cfsetspeed`, whose result the code does not look
at.  BSD libc: `t->c_ispeed = t->c_ospeed = speed`.  glibc
(termios/cfsetspeed.c): `cfsetispeed` and `cfsetospeed` with the constant
found in the table, or nothing. -/
def cfsetspeed (p : Platform) (t : Termios) (speed : Nat) : Termios :=
  match p.libc with
  | .bsd => { t with c_ispeed := speed, c_ospeed := speed }
  | .glibc =>
    match glibc_find_speed p speed glibc_speed_rates with
    | some b => cfsetospeed p (cfsetispeed p t b) b
    | none => t

/-- Lines 250-255: `cfsetspeed`, or `cfsetispeed` and `cfsetospeed`. -/
def set_speed (p : Platform) (baud : Nat) (options : Termios) : Termios :=
  if p.BSD_SOURCE then
    cfsetspeed p options baud
  else
    let options := cfsetispeed p options baud
    cfsetospeed p options baud

/-- The conversion `static_cast<int>` of an `unsigned long`. -/
def to_int (n : Nat) : Int :=
  ((n + 2 ^ 31) % 2 ^ 32 : Nat) - 2 ^ 31

/-- Lines 131-256: the baud rate.  A standard rate sets the two speeds of
`options`; any other rate takes the custom-baud path of the platform. -/
def setup_baud (p : Platform) (s : SerialImpl) (os : Os) (k : ReconfAnswers)
    (options : Termios) : Os × Except Exn Termios :=
  match standard_baud p s.baudrate_ with
  | some baud => (os, .ok (set_speed p baud options))
  | none =>
    match p.kind with
    | .apple =>
      let os := os.log (.ioctl_IOSSIOSPEED s.fd_ (to_int s.baudrate_))
      if k.ioctl_ret < 0 then (os, .error (.errno k.errno)) else (os, .ok options)
    | .linux =>
      let os := os.log (.ioctl_TIOCGSERIAL s.fd_)
      let os := os.log (.ioctl_TIOCSSERIAL s.fd_ (k.baud_base / s.baudrate_))
      if k.ioctl_ret < 0 then (os, .error (.errno k.errno)) else (os, .ok options)
    | .other =>
      (os, .error (.str .invalid_argument "OS does not currently support custom bauds"))

/-- Lines 258-269: character length. -/
def setup_char_len (p : Platform) (bytesize : bytesize_t) (options : Termios) :
    Except Exn Termios :=
  let options := { options with c_cflag := clear_bits options.c_cflag p.CSIZE }
  match bytesize with
  | .EIGHTBITS => .ok { options with c_cflag := set_bits options.c_cflag p.CS8 }
  | .SEVENBITS => .ok { options with c_cflag := set_bits options.c_cflag p.CS7 }
  | .SIXBITS => .ok { options with c_cflag := set_bits options.c_cflag p.CS6 }
  | .FIVEBITS => .ok { options with c_cflag := set_bits options.c_cflag p.CS5 }
  | .unlisted _ => .error (.str .invalid_argument "invalid char len")

/-- Lines 270-279: stop bits. -/
def setup_stopbits (p : Platform) (stopbits : stopbits_t) (options : Termios) :
    Except Exn Termios :=
  match stopbits with
  | .STOPBITS_ONE => .ok { options with c_cflag := clear_bits options.c_cflag p.CSTOPB }
  | .STOPBITS_ONE_POINT_FIVE => .ok { options with c_cflag := set_bits options.c_cflag p.CSTOPB }
  | .STOPBITS_TWO => .ok { options with c_cflag := set_bits options.c_cflag p.CSTOPB }
  | .unlisted _ => .error (.str .invalid_argument "invalid stop bit")

/-- Lines 280-298: parity. -/
def setup_parity (p : Platform) (parity : parity_t) (options : Termios) :
    Except Exn Termios :=
  let options := { options with c_iflag := clear_bits options.c_iflag (p.INPCK ||| p.ISTRIP) }
  match parity with
  | .PARITY_NONE =>
    .ok { options with c_cflag := clear_bits options.c_cflag (p.PARENB ||| p.PARODD) }
  | .PARITY_EVEN =>
    let options := { options with c_cflag := clear_bits options.c_cflag p.PARODD }
    .ok { options with c_cflag := set_bits options.c_cflag p.PARENB }
  | .PARITY_ODD =>
    .ok { options with c_cflag := set_bits options.c_cflag (p.PARENB ||| p.PARODD) }
  | _ => .error (.str .invalid_argument "invalid parity")

/-- Lines 299-311: software flow control, from the member `xonxoff_`. -/
def setup_xonxoff (p : Platform) (xonxoff : Bool) (options : Termios) : Termios :=
  match p.IXANY with
  | some ixany =>
    if xonxoff then
      { options with c_iflag := set_bits options.c_iflag (p.IXON ||| p.IXOFF) }
    else
      { options with c_iflag := clear_bits options.c_iflag (p.IXON ||| p.IXOFF ||| ixany) }
  | none =>
    if xonxoff then
      { options with c_iflag := set_bits options.c_iflag (p.IXON ||| p.IXOFF) }
    else
      { options with c_iflag := clear_bits options.c_iflag (p.IXON ||| p.IXOFF) }

/-- Lines 312-325: hardware flow control, from the member `rtscts_`. -/
def setup_rtscts (p : Platform) (rtscts : Bool) (options : Termios) : Termios :=
  if rtscts then
    { options with c_cflag := set_bits options.c_cflag p.CRTSCTS }
  else
    { options with c_cflag := clear_bits options.c_cflag p.CRTSCTS }

/-- Lines 331-332: `c_cc[VMIN] = 0` and `c_cc[VTIME] = 0`. -/
def setup_cc (p : Platform) (options : Termios) : Termios :=
  let options := { options with c_cc := options.c_cc.set p.VMIN 0 }
  { options with c_cc := options.c_cc.set p.VTIME 0 }

/-- Lines 258-332: everything between the baud rate and `tcsetattr`. -/
def setup_line (p : Platform) (s : SerialImpl) (options : Termios) : Except Exn Termios :=
  match setup_char_len p s.bytesize_ options with
  | .error e => .error e
  | .ok options =>
    match setup_stopbits p s.stopbits_ options with
    | .error e => .error e
    | .ok options =>
      match setup_parity p s.parity_ options with
      | .error e => .error e
      | .ok options =>
        let options := setup_xonxoff p s.xonxoff_ options
        let options := setup_rtscts p s.rtscts_ options
        .ok (setup_cc p options)

/-- The member function `reconfigurePort` (lines 101-336).  `tcgetattr` copies
the control block of the device into `options`; `tcsetattr`, whose result the
code does not look at, installs `options` when it answers 0. -/
def SerialImpl.reconfigurePort (p : Platform) (s : SerialImpl) (os : Os)
    (k : ReconfAnswers) : Res Unit :=
  if s.fd_ = -1 then
    ⟨s, os, .threw (.str .IOException "Invalid file descriptor, is the serial port open?")⟩
  else
    let os := os.log (.tcgetattr s.fd_)
    if k.tcgetattr_ret = -1 then
      ⟨s, os, .threw (.str .IOException "::tcgetattr")⟩
    else
      let options := raw_mode p os.termios
      match setup_baud p s os k options with
      | (os, .error e) => ⟨s, os, .threw e⟩
      | (os, .ok options) =>
        match setup_line p s options with
        | .error e => ⟨s, os, .threw e⟩
        | .ok options =>
          let os := os.log (.tcsetattr s.fd_ options)
          let os := { os with
            termios := if k.tcsetattr_ret = 0 then options else os.termios }
          ⟨s, os, .returned ()⟩

/-! ## Handle lifecycle (lines 45-99 and 338-356) -/

/-- What `::open` answers: the descriptor (or -1) and `errno`. -/
structure OpenAnswer where
  fd : Int
  errno : Int
deriving DecidableEq, Repr

/-- The member function `open` (lines 66-99).  The answers of the successive
`::open` calls are consumed one per call; the call on `EINTR` is the
recursive call of line 86. -/
def SerialImpl.open (p : Platform) (s : SerialImpl) (os : Os)
    (answers : List OpenAnswer) (k : ReconfAnswers) : Res Unit :=
  if s.port_.isEmpty then
    ⟨s, os, .threw (.str .invalid_argument "Empty port is invalid.")⟩
  else if s.is_open_ = true then
    ⟨s, os, .threw (.str .SerialExecption "Serial port already open.")⟩
  else
    match answers with
    | [] => ⟨s, os, .pending⟩
    | a :: rest =>
      let s := { s with fd_ := a.fd }
      let os := os.log (.os_open s.port_)
      if a.fd = -1 then
        if a.errno = p.EINTR then
          SerialImpl.open p s os rest k
        else if a.errno = p.ENFILE ∨ a.errno = p.EMFILE then
          ⟨s, os, .threw (.str .IOException "Too many file handles open.")⟩
        else
          ⟨s, os, .threw (.errno a.errno)⟩
      else
        let r := s.reconfigurePort p os k
        match r.out with
        | .returned _ => ⟨{ r.self with is_open_ := true }, r.os, .returned ()⟩
        | out => ⟨r.self, r.os, out⟩

/-- The constructor `SerialImpl::SerialImpl` (lines 45-57).  When `open`
throws, so does the constructor; `self` is then what the members held at that
point. -/
def SerialImpl.ctor (p : Platform) (port : String) (baudrate : Nat) (timeout : Int)
    (bytesize : bytesize_t) (parity : parity_t) (stopbits : stopbits_t)
    (flowcontrol : flowcontrol_t) (os : Os) (answers : List OpenAnswer)
    (k : ReconfAnswers) : Res Unit :=
  let s : SerialImpl :=
    { port_ := port, fd_ := -1, is_open_ := false, xonxoff_ := true, rtscts_ := false,
      timeout_ := timeout, baudrate_ := baudrate, parity_ := parity,
      bytesize_ := bytesize, stopbits_ := stopbits, flowcontrol_ := flowcontrol }
  if s.port_.isEmpty = false then s.open p os answers k else ⟨s, os, .returned ()⟩

/-- The member function `close` (lines 338-350). -/
def SerialImpl.close (s : SerialImpl) (os : Os) : Res Unit :=
  if s.is_open_ = true then
    if s.fd_ ≠ -1 then
      ⟨{ s with fd_ := -1, is_open_ := false }, os.log (.os_close s.fd_), .returned ()⟩
    else
      ⟨{ s with is_open_ := false }, os, .returned ()⟩
  else
    ⟨s, os, .returned ()⟩

/-- The member function `isOpen` (lines 352-356). -/
def SerialImpl.isOpen (s : SerialImpl) : Bool :=
  s.is_open_

/-- The member function `available` (lines 358-375): `result` and `count` are
what `ioctl (fd_, TIOCINQ, &count)` answers, `errno` the error code. -/
def SerialImpl.available (s : SerialImpl) (os : Os) (result count errno : Int) : Res Nat :=
  if s.is_open_ = false then
    ⟨s, os, .returned 0⟩
  else
    let os := os.log (.ioctl_TIOCINQ s.fd_)
    if result = 0 then
      ⟨s, os, .returned (count % 2 ^ 64).toNat⟩
    else
      ⟨s, os, .threw (.errno errno)⟩

/-! ## Read engine (lines 377-491) -/

/-- What `::read` answers: `data chunk` is a return value of `chunk.length`
with the bytes `chunk` stored at its buffer argument, `failed` is -1. -/
inductive ReadAnswer
  | data (chunk : List Nat)
  | failed
deriving DecidableEq, Repr

/-- The value returned by `::read`. -/
def ReadAnswer.ret : ReadAnswer → Int
  | .data chunk => chunk.length
  | .failed => -1

/-- What the operating system answers during one turn of the loop: the clock
before and after `select` (read on platforms other than Linux), the value `r`
of `select` and `errno`, what `select` leaves in `timeout` (Linux), whether
`fd_` is in `readfds`, and the answer of `::read` should the turn come to it. -/
structure SelectAnswer where
  start : timespec
  end_ : timespec
  r : Int
  errno : Int
  timeout_left : timeval
  isset : Bool
  rd : ReadAnswer
deriving DecidableEq, Repr

/-- The locals of `read` and what they point at: the caller's buffer,
`bytes_read`, `timeout`, and the operating-system side. -/
structure ReadState where
  buf : List Nat
  bytes_read : Nat
  timeout : timeval
  os : Os
deriving DecidableEq, Repr

/-- What `read` leaves behind: the object, the locals at the end, how the call
ended, and the answers it did not consume. -/
structure ReadRes where
  self : SerialImpl
  st : ReadState
  out : Outcome Nat
  rest : List SelectAnswer
deriving DecidableEq, Repr

/-- Memory after `chunk` is stored at `buf + off`. -/
def store_at (buf : List Nat) (off : Nat) (chunk : List Nat) : List Nat :=
  buf.take off ++ chunk ++ buf.drop (off + chunk.length)

/-- Lines 420-434: subtract the time `select` took from `timeout`. -/
def update_timeout (timeout : timeval) (start end_ : timespec) : timeval :=
  let diff : timeval :=
    { tv_sec := end_.tv_sec - start.tv_sec,
      tv_usec := Int.tdiv (end_.tv_nsec - start.tv_nsec) 1000 }
  let timeout : timeval :=
    if timeout.tv_sec ≤ diff.tv_sec then
      { timeout with tv_sec := 0 }
    else
      { timeout with tv_sec := timeout.tv_sec - diff.tv_sec }
  if timeout.tv_usec ≤ diff.tv_usec then
    { timeout with tv_usec := 0 }
  else
    { timeout with tv_usec := timeout.tv_usec - diff.tv_usec }

/-- How one turn of the `while` loop ends. -/
inductive Turn
  | continue_ (st : ReadState)
  | break_ (st : ReadState)
  | throw_ (st : ReadState) (e : Exn)
deriving DecidableEq, Repr

/-- Lines 405-435: the `select` call and what it does to `timeout`.  On
Linux `select` itself leaves the time left in `timeout`; elsewhere the call
is timed and `update_timeout` subtracts the time it took. -/
def wait_ready (p : Platform) (fd : Int) (st : ReadState) (a : SelectAnswer) : ReadState :=
  if p.kind = .linux then
    { st with os := st.os.log (.select fd st.timeout), timeout := a.timeout_left }
  else
    let os := st.os.log .get_time_now
    let os := os.log (.select fd st.timeout)
    let os := os.log .get_time_now
    { st with os := os, timeout := update_timeout st.timeout a.start a.end_ }

/-- The body of the `while` loop (lines 405-488), entered with
`bytes_read < size`. -/
def read_turn (p : Platform) (fd : Int) (size : Nat) (st : ReadState) (a : SelectAnswer) :
    Turn :=
  let st : ReadState := wait_ready p fd st a
  if a.r < 0 then
    if a.errno = p.EINTR then .continue_ st else .throw_ st (.errno a.errno)
  else if a.r = 0 then
    .break_ st
  else if a.isset then
    let bytes_read_now := a.rd.ret
    let st : ReadState :=
      { st with
        os := st.os.log (.os_read fd (size - st.bytes_read) bytes_read_now),
        buf := match a.rd with
          | .data chunk => store_at st.buf 0 chunk
          | .failed => st.buf }
    if bytes_read_now < 1 then
      .throw_ st (.str .SerialExecption
        "device reports readiness to read but returned no data (device disconnected?)")
    else
      let st := { st with bytes_read := st.bytes_read + bytes_read_now.toNat }
      if st.bytes_read = size then
        .break_ st
      else if st.bytes_read < size then
        .continue_ st
      else if st.bytes_read > size then
        .throw_ st (.str .SerialExecption
          ("read over read, too many bytes where read, this shouldn't happen, " ++
           "might be a logical error!"))
      else
        .throw_ st (.str .IOException
          ("select reports ready to read, but our fd isn't in the list, " ++
           "this shouldn't happen!"))
  else
    .throw_ st (.str .IOException
      ("select reports ready to read, but our fd isn't in the list, " ++
       "this shouldn't happen!"))

/-- The `while (bytes_read < size)` loop (lines 403-489) and the `return` of
line 490, one answer of the operating system per turn. -/
def read_loop (p : Platform) (s : SerialImpl) (size : Nat) (st : ReadState)
    (answers : List SelectAnswer) : ReadRes :=
  if st.bytes_read < size then
    match answers with
    | [] => ⟨s, st, .pending, []⟩
    | a :: rest =>
      match read_turn p s.fd_ size st a with
      | .continue_ st => read_loop p s size st rest
      | .break_ st => ⟨s, st, .returned st.bytes_read, rest⟩
      | .throw_ st e => ⟨s, st, .threw e, rest⟩
  else
    ⟨s, st, .returned st.bytes_read, answers⟩

/-- Lines 400-402: the configured timeout in milliseconds as a `timeval`. -/
def initial_timeout (timeout_ : Int) : timeval :=
  { tv_sec := Int.tdiv timeout_ 1000, tv_usec := Int.tmod timeout_ 1000 * 1000 }

/-- The member function `read` (lines 391-491): `buf` is the memory at the
caller's buffer, `size` the count asked for. -/
def SerialImpl.read (p : Platform) (s : SerialImpl) (os : Os) (buf : List Nat) (size : Nat)
    (answers : List SelectAnswer) : ReadRes :=
  if s.is_open_ = false then
    ⟨s, ⟨buf, 0, initial_timeout s.timeout_, os⟩,
      .threw (.str .PortNotOpenedException "Serial::read"), answers⟩
  else
    read_loop p s size ⟨buf, 0, initial_timeout s.timeout_, os⟩ answers

/-! ## Write engine, setters and getters (lines 493-596) -/

/-- The member function `write` (lines 493-502): `ret` is what `::write`
answers, converted by `static_cast<size_t>`. -/
def SerialImpl.write (s : SerialImpl) (os : Os) (data : List Nat) (ret : Int) : Res Nat :=
  if s.is_open_ = false then
    ⟨s, os, .threw (.str .PortNotOpenedException "Serial::write")⟩
  else
    ⟨s, os.log (.os_write s.fd_ data), .returned (ret % 2 ^ 64).toNat⟩

/-- The member function `setPort`. -/
def SerialImpl.setPort (s : SerialImpl) (os : Os) (port : String) : Res Unit :=
  ⟨{ s with port_ := port }, os, .returned ()⟩

/-- The member function `getPort`. -/
def SerialImpl.getPort (s : SerialImpl) : String :=
  s.port_

/-- The member function `setTimeout`. -/
def SerialImpl.setTimeout (s : SerialImpl) (os : Os) (timeout : Int) : Res Unit :=
  ⟨{ s with timeout_ := timeout }, os, .returned ()⟩

/-- The member function `getTimeout`. -/
def SerialImpl.getTimeout (s : SerialImpl) : Int :=
  s.timeout_

/-- The member function `setBaudrate`. -/
def SerialImpl.setBaudrate (p : Platform) (s : SerialImpl) (os : Os) (baudrate : Nat)
    (k : ReconfAnswers) : Res Unit :=
  let s := { s with baudrate_ := baudrate }
  if s.is_open_ then s.reconfigurePort p os k else ⟨s, os, .returned ()⟩

/-- The member function `getBaudrate`. -/
def SerialImpl.getBaudrate (s : SerialImpl) : Nat :=
  s.baudrate_

/-- The member function `setBytesize`. -/
def SerialImpl.setBytesize (p : Platform) (s : SerialImpl) (os : Os) (bytesize : bytesize_t)
    (k : ReconfAnswers) : Res Unit :=
  let s := { s with bytesize_ := bytesize }
  if s.is_open_ then s.reconfigurePort p os k else ⟨s, os, .returned ()⟩

/-- The member function `getBytesize`. -/
def SerialImpl.getBytesize (s : SerialImpl) : bytesize_t :=
  s.bytesize_

/-- The member function `setParity`. -/
def SerialImpl.setParity (p : Platform) (s : SerialImpl) (os : Os) (parity : parity_t)
    (k : ReconfAnswers) : Res Unit :=
  let s := { s with parity_ := parity }
  if s.is_open_ then s.reconfigurePort p os k else ⟨s, os, .returned ()⟩

/-- The member function `getParity`. -/
def SerialImpl.getParity (s : SerialImpl) : parity_t :=
  s.parity_

/-- The member function `setStopbits`. -/
def SerialImpl.setStopbits (p : Platform) (s : SerialImpl) (os : Os) (stopbits : stopbits_t)
    (k : ReconfAnswers) : Res Unit :=
  let s := { s with stopbits_ := stopbits }
  if s.is_open_ then s.reconfigurePort p os k else ⟨s, os, .returned ()⟩

/-- The member function `getStopbits`. -/
def SerialImpl.getStopbits (s : SerialImpl) : stopbits_t :=
  s.stopbits_

/-- The member function `setFlowcontrol`. -/
def SerialImpl.setFlowcontrol (p : Platform) (s : SerialImpl) (os : Os)
    (flowcontrol : flowcontrol_t) (k : ReconfAnswers) : Res Unit :=
  let s := { s with flowcontrol_ := flowcontrol }
  if s.is_open_ then s.reconfigurePort p os k else ⟨s, os, .returned ()⟩

/-- The member function `getFlowcontrol`. -/
def SerialImpl.getFlowcontrol (s : SerialImpl) : flowcontrol_t :=
  s.flowcontrol_

/-! ## Control-line interface (lines 598-729) -/

/-- The member function `flush`. -/
def SerialImpl.flush (s : SerialImpl) (os : Os) : Res Unit :=
  if s.is_open_ = false then
    ⟨s, os, .threw (.str .PortNotOpenedException "Serial::flush")⟩
  else
    ⟨s, os.log (.tcdrain s.fd_), .returned ()⟩

/-- The member function `flushInput`. -/
def SerialImpl.flushInput (s : SerialImpl) (os : Os) : Res Unit :=
  if s.is_open_ = false then
    ⟨s, os, .threw (.str .PortNotOpenedException "Serial::flushInput")⟩
  else
    ⟨s, os.log (.tcflush_in s.fd_), .returned ()⟩

/-- The member function `flushOutput`. -/
def SerialImpl.flushOutput (s : SerialImpl) (os : Os) : Res Unit :=
  if s.is_open_ = false then
    ⟨s, os, .threw (.str .PortNotOpenedException "Serial::flushOutput")⟩
  else
    ⟨s, os.log (.tcflush_out s.fd_), .returned ()⟩

/-- The member function `sendBreak`. -/
def SerialImpl.sendBreak (s : SerialImpl) (os : Os) (duration : Int) : Res Unit :=
  if s.is_open_ = false then
    ⟨s, os, .threw (.str .PortNotOpenedException "Serial::sendBreak")⟩
  else
    ⟨s, os.log (.tcsendbreak s.fd_ (Int.tdiv duration 4)), .returned ()⟩

/-- The member function `setBreak`. -/
def SerialImpl.setBreak (s : SerialImpl) (os : Os) (level : Bool) : Res Unit :=
  if s.is_open_ = false then
    ⟨s, os, .threw (.str .PortNotOpenedException "Serial::setBreak")⟩
  else if level then
    ⟨s, os.log (.ioctl_TIOCSBRK s.fd_), .returned ()⟩
  else
    ⟨s, os.log (.ioctl_TIOCCBRK s.fd_), .returned ()⟩

/-- The member function `setRTS`. -/
def SerialImpl.setRTS (p : Platform) (s : SerialImpl) (os : Os) (level : Bool) : Res Unit :=
  if s.is_open_ = false then
    ⟨s, os, .threw (.str .PortNotOpenedException "Serial::setRTS")⟩
  else if level then
    ⟨s, os.log (.ioctl_TIOCMBIS s.fd_ p.TIOCM_RTS), .returned ()⟩
  else
    ⟨s, os.log (.ioctl_TIOCMBIC s.fd_ p.TIOCM_RTS), .returned ()⟩

/-- The member function `setDTR`. -/
def SerialImpl.setDTR (p : Platform) (s : SerialImpl) (os : Os) (level : Bool) : Res Unit :=
  if s.is_open_ = false then
    ⟨s, os, .threw (.str .PortNotOpenedException "Serial::setDTR")⟩
  else if level then
    ⟨s, os.log (.ioctl_TIOCMBIS s.fd_ p.TIOCM_DTR), .returned ()⟩
  else
    ⟨s, os.log (.ioctl_TIOCMBIC s.fd_ p.TIOCM_DTR), .returned ()⟩

/-- The member function `getCTS`: `status` is what `ioctl (fd_, TIOCMGET, 0)`
answers. -/
def SerialImpl.getCTS (p : Platform) (s : SerialImpl) (os : Os) (status : Int) : Res Bool :=
  if s.is_open_ = false then
    ⟨s, os, .threw (.str .PortNotOpenedException "Serial::getCTS")⟩
  else
    ⟨s, os.log (.ioctl_TIOCMGET s.fd_), .returned (decide (Int.land status p.TIOCM_CTS ≠ 0))⟩

/-- The member function `getDSR`. -/
def SerialImpl.getDSR (p : Platform) (s : SerialImpl) (os : Os) (status : Int) : Res Bool :=
  if s.is_open_ = false then
    ⟨s, os, .threw (.str .PortNotOpenedException "Serial::getDSR")⟩
  else
    ⟨s, os.log (.ioctl_TIOCMGET s.fd_), .returned (decide (Int.land status p.TIOCM_DSR ≠ 0))⟩

/-- The member function `getRI`. -/
def SerialImpl.getRI (p : Platform) (s : SerialImpl) (os : Os) (status : Int) : Res Bool :=
  if s.is_open_ = false then
    ⟨s, os, .threw (.str .PortNotOpenedException "Serial::getRI")⟩
  else
    ⟨s, os.log (.ioctl_TIOCMGET s.fd_), .returned (decide (Int.land status p.TIOCM_RI ≠ 0))⟩

/-- The member function `getCD`. -/
def SerialImpl.getCD (p : Platform) (s : SerialImpl) (os : Os) (status : Int) : Res Bool :=
  if s.is_open_ = false then
    ⟨s, os, .threw (.str .PortNotOpenedException "Serial::getCD")⟩
  else
    ⟨s, os.log (.ioctl_TIOCMGET s.fd_), .returned (decide (Int.land status p.TIOCM_CD ≠ 0))⟩

/-! ## Notions used in the statements -/

/-- The handle invariant: `fd_` is not the sentinel -1 exactly when
`is_open_` is set. -/
def handle_invariant (s : SerialImpl) : Prop :=
  s.fd_ ≠ -1 ↔ s.is_open_ = true

instance (s : SerialImpl) : Decidable (handle_invariant s) := by
  unfold handle_invariant
  exact inferInstance

/-- A call was refused on a closed port: it threw `PortNotOpenedException`
and left the object and the operating-system side as they were. -/
def refused {α : Type} (s : SerialImpl) (os : Os) (r : Res α) : Prop :=
  r.self = s ∧ r.os = os ∧ ∃ what, r.out = .threw (.str .PortNotOpenedException what)

/-- Sum of the counts returned by the `::read` calls of a log. -/
def read_counts : List OsCall → Int
  | [] => 0
  | .os_read _ _ ret :: rest => ret + read_counts rest
  | _ :: rest => read_counts rest

/-- The state with which a turn goes on or leaves the loop by `break`: the
log has grown by the primitives of the turn, `bytes_read` by the counts that
`::read` returned, and `bytes_read` is still within `size`. -/
def turn_ok (size : Nat) (st st' : ReadState) : Prop :=
  ∃ made, st'.os.calls = st.os.calls ++ made ∧
    (st'.bytes_read : Int) = st.bytes_read + read_counts made ∧
    (st.bytes_read ≤ size → st'.bytes_read ≤ size)

/-- The primitives a call invoked: the log after it, less the log before. -/
def calls_made (before after : Os) : List OsCall :=
  after.calls.drop before.calls.length

/-- A `timeval` in microseconds. -/
def timeval.usec (tv : timeval) : Int :=
  tv.tv_sec * 1000000 + tv.tv_usec

/-- The time between two clock readings, in whole microseconds. -/
def elapsed_usec (start end_ : timespec) : Int :=
  ((end_.tv_sec - start.tv_sec) * 1000000000 + (end_.tv_nsec - start.tv_nsec)) / 1000

/-- The byte sizes for which lines 260-267 have a branch. -/
def bytesize_supported : bytesize_t → Bool
  | .EIGHTBITS => true
  | .SEVENBITS => true
  | .SIXBITS => true
  | .FIVEBITS => true
  | .unlisted _ => false

/-- The stop bits for which lines 271-277 have a branch. -/
def stopbits_supported : stopbits_t → Bool
  | .STOPBITS_ONE => true
  | .STOPBITS_ONE_POINT_FIVE => true
  | .STOPBITS_TWO => true
  | .unlisted _ => false

/-- The parities for which lines 282-294 have a branch. -/
def parity_supported : parity_t → Bool
  | .PARITY_NONE => true
  | .PARITY_EVEN => true
  | .PARITY_ODD => true
  | _ => false

/-- The line configurations that `reconfigurePort` has branches for. -/
def line_supported (s : SerialImpl) : Bool :=
  bytesize_supported s.bytesize_ && stopbits_supported s.stopbits_ &&
    parity_supported s.parity_

/-- A function on flag words that treats every bit on its own: it clears the
bit, sets it, or keeps it. -/
def BitOp (f : Nat → Nat) : Prop :=
  ∃ c d : Nat → Bool, ∀ x i, (f x).testBit i = ((x.testBit i && c i) || d i)

/-- A function on control blocks that applies a `BitOp` to each flag word and
to each of the two speeds (keeping a speed and assigning it a constant are
both of that kind) and keeps the control characters. -/
def FlagFn (F : Termios → Termios) : Prop :=
  ∃ fi fo fc fl fsi fso : Nat → Nat,
    BitOp fi ∧ BitOp fo ∧ BitOp fc ∧ BitOp fl ∧ BitOp fsi ∧ BitOp fso ∧
    ∀ t, F t = ⟨fi t.c_iflag, fo t.c_oflag, fc t.c_cflag, fl t.c_lflag,
      t.c_cc, fsi t.c_ispeed, fso t.c_ospeed⟩

/-! ## Concrete objects -/

/-- A device whose control block is all zero, before any call. -/
def sample_os : Os :=
  ⟨⟨0, 0, 0, 0, List.replicate 32 0, 0, 0⟩, []⟩

/-- Every primitive of `reconfigurePort` answers success. -/
def answers_ok : ReconfAnswers :=
  ⟨0, 0, 0, 0, 0⟩

/-- A closed object for `/dev/ttyS0`: 9600 baud, 8 bits, no parity, one stop
bit, no flow control, a timeout of one second. -/
def closed_port : SerialImpl :=
  { port_ := "/dev/ttyS0", fd_ := -1, is_open_ := false, xonxoff_ := true, rtscts_ := false,
    timeout_ := 1000, baudrate_ := 9600, parity_ := .PARITY_NONE, bytesize_ := .EIGHTBITS,
    stopbits_ := .STOPBITS_ONE, flowcontrol_ := ⟨false, false⟩ }

/-- The same object, open on descriptor 3. -/
def open_port : SerialImpl :=
  { closed_port with fd_ := 3, is_open_ := true }

/-- A turn in which `select` reports `fd_` ready and `::read` delivers
`chunk`. -/
def ready (chunk : List Nat) : SelectAnswer :=
  ⟨⟨0, 0⟩, ⟨0, 0⟩, 1, 0, ⟨1, 0⟩, true, .data chunk⟩

/-- A turn in which `select` times out. -/
def timed_out : SelectAnswer :=
  ⟨⟨0, 0⟩, ⟨1, 0⟩, 0, 0, ⟨0, 0⟩, false, .failed⟩

/-- The open object with a byte size that names no enumerator. -/
def bad_port : SerialImpl :=
  { open_port with bytesize_ := .unlisted 9 }

/-- A device in the usual cooked mode of a Linux terminal, at 38400 baud. -/
def cooked_os : Os :=
  ⟨⟨0o2402, 0o5, 0o2277, 0o105073,
    [3, 28, 127, 21, 4, 0, 1, 0, 17, 19, 26, 0, 18, 15, 23, 22,
     0, 0, 0, 0, 0, 0, 0, 0, 0, 0, 0, 0, 0, 0, 0, 0], 0o17, 0o17⟩, []⟩

/-! ## Handle lifecycle -/

/-- C4, at the failing input: `open` on a closed object, `::open` answering
descriptor 3 and `tcgetattr` answering -1.  The object satisfies the handle
invariant before the call; the call throws `IOException` out of
`reconfigurePort` and leaves `fd_ = 3` with `is_open_ = false`, which breaks
the invariant. -/
theorem open_reconfigure_failure_breaks_handle_invariant :
    handle_invariant closed_port ∧
    (closed_port.open linux sample_os [⟨3, 0⟩] { answers_ok with tcgetattr_ret := -1 }).out
      = .threw (.str .IOException "::tcgetattr") ∧
    (closed_port.open linux sample_os [⟨3, 0⟩] { answers_ok with tcgetattr_ret := -1 }).self.fd_
      = 3 ∧
    (closed_port.open linux sample_os [⟨3, 0⟩]
      { answers_ok with tcgetattr_ret := -1 }).self.is_open_ = false ∧
    ¬ handle_invariant
      (closed_port.open linux sample_os [⟨3, 0⟩] { answers_ok with tcgetattr_ret := -1 }).self := by
  decide

/-! ## Handle lifecycle: the paths that keep the invariant -/

theorem reconfigurePort_self (p : Platform) (s : SerialImpl) (os : Os) (k : ReconfAnswers) :
    (s.reconfigurePort p os k).self = s := by
  unfold SerialImpl.reconfigurePort
  split_ifs
  all_goals try rfl
  all_goals
    simp only
    split
    · rfl
    · split <;> rfl

theorem close_keeps_handle_invariant (s : SerialImpl) (os : Os) (h : handle_invariant s) :
    handle_invariant (s.close os).self := by
  unfold SerialImpl.close
  unfold handle_invariant at h ⊢
  split_ifs <;> simp_all

theorem setters_keep_handle_invariant (p : Platform) (s : SerialImpl) (os : Os)
    (k : ReconfAnswers) (h : handle_invariant s) (port : String) (timeout : Int)
    (baudrate : Nat) (bytesize : bytesize_t) (parity : parity_t) (stopbits : stopbits_t)
    (flowcontrol : flowcontrol_t) :
    handle_invariant (s.reconfigurePort p os k).self ∧
    handle_invariant (s.setPort os port).self ∧
    handle_invariant (s.setTimeout os timeout).self ∧
    handle_invariant (s.setBaudrate p os baudrate k).self ∧
    handle_invariant (s.setBytesize p os bytesize k).self ∧
    handle_invariant (s.setParity p os parity k).self ∧
    handle_invariant (s.setStopbits p os stopbits k).self ∧
    handle_invariant (s.setFlowcontrol p os flowcontrol k).self := by
  unfold handle_invariant at h ⊢
  refine ⟨?_, ?_, ?_, ?_, ?_, ?_, ?_, ?_⟩
  · rw [reconfigurePort_self]; exact h
  · exact h
  · exact h
  all_goals
    simp only [SerialImpl.setBaudrate, SerialImpl.setBytesize, SerialImpl.setParity,
      SerialImpl.setStopbits, SerialImpl.setFlowcontrol]
    split_ifs
    · rw [reconfigurePort_self]; exact h
    · exact h

theorem open_nil (p : Platform) (s : SerialImpl) (os : Os) (k : ReconfAnswers)
    (hport : s.port_.isEmpty = false) (hclosed : s.is_open_ = false) :
    s.open p os [] k = ⟨s, os, .pending⟩ := by
  rw [SerialImpl.open]
  simp only [hport, hclosed, Bool.false_eq_true, if_false]

theorem open_cons (p : Platform) (s : SerialImpl) (os : Os) (a : OpenAnswer)
    (rest : List OpenAnswer) (k : ReconfAnswers) (hport : s.port_.isEmpty = false)
    (hclosed : s.is_open_ = false) :
    s.open p os (a :: rest) k =
      if a.fd = -1 then
        if a.errno = p.EINTR then
          SerialImpl.open p { s with fd_ := a.fd } (os.log (.os_open s.port_)) rest k
        else if a.errno = p.ENFILE ∨ a.errno = p.EMFILE then
          ⟨{ s with fd_ := a.fd }, os.log (.os_open s.port_),
            .threw (.str .IOException "Too many file handles open.")⟩
        else
          ⟨{ s with fd_ := a.fd }, os.log (.os_open s.port_), .threw (.errno a.errno)⟩
      else
        match (({ s with fd_ := a.fd } : SerialImpl).reconfigurePort p
            (os.log (.os_open s.port_)) k).out with
        | .returned _ =>
          ⟨{ (({ s with fd_ := a.fd } : SerialImpl).reconfigurePort p
              (os.log (.os_open s.port_)) k).self with is_open_ := true },
            (({ s with fd_ := a.fd } : SerialImpl).reconfigurePort p
              (os.log (.os_open s.port_)) k).os, .returned ()⟩
        | out =>
          ⟨(({ s with fd_ := a.fd } : SerialImpl).reconfigurePort p
              (os.log (.os_open s.port_)) k).self,
            (({ s with fd_ := a.fd } : SerialImpl).reconfigurePort p
              (os.log (.os_open s.port_)) k).os, out⟩ := by
  rw [SerialImpl.open]
  simp only [hport, hclosed, Bool.false_eq_true, if_false]

theorem open_guarded (p : Platform) (s : SerialImpl) (os : Os) (answers : List OpenAnswer)
    (k : ReconfAnswers) (h : s.port_.isEmpty = true ∨ s.is_open_ = true) :
    (s.open p os answers k).self = s := by
  unfold SerialImpl.open
  rcases h with h | h
  · simp only [h, if_true]
  · by_cases hport : s.port_.isEmpty = true
    · simp only [hport, if_true]
    · simp only [hport, h, if_true, if_false, Bool.false_eq_true]

/-- Every path through `open` but one keeps the handle invariant; the one
that does not is the throw out of `reconfigurePort` after `::open` gave a
descriptor. -/
theorem open_keeps_handle_invariant (p : Platform) (k : ReconfAnswers)
    (answers : List OpenAnswer) :
    ∀ (s : SerialImpl) (os : Os), handle_invariant s →
      handle_invariant (s.open p os answers k).self ∨
      ((s.open p os answers k).out ≠ .returned () ∧ (s.open p os answers k).self.fd_ ≠ -1 ∧
        (s.open p os answers k).self.is_open_ = false) := by
  induction answers with
  | nil =>
    intro s os h
    left
    by_cases hg : s.port_.isEmpty = true ∨ s.is_open_ = true
    · rw [open_guarded p s os [] k hg]; exact h
    · simp only [not_or, Bool.not_eq_true] at hg
      rw [open_nil p s os k hg.1 hg.2]; exact h
  | cons a rest ih =>
    intro s os h
    by_cases hg : s.port_.isEmpty = true ∨ s.is_open_ = true
    · rw [open_guarded p s os _ k hg]; exact Or.inl h
    · simp only [not_or, Bool.not_eq_true] at hg
      rw [open_cons p s os a rest k hg.1 hg.2]
      have hinv : a.fd = -1 → handle_invariant { s with fd_ := a.fd } := by
        intro hfd
        unfold handle_invariant
        simp [hfd, hg.2]
      have hself := reconfigurePort_self p { s with fd_ := a.fd } (os.log (.os_open s.port_)) k
      split_ifs with hfd
      · exact ih _ _ (hinv hfd)
      · exact Or.inl (hinv hfd)
      · exact Or.inl (hinv hfd)
      · split
        · left
          simp only [hself]
          unfold handle_invariant
          simp [hfd]
        · rename_i out hout
          right
          simp only [hself]
          refine ⟨?_, hfd, hg.2⟩
          intro hret
          exact hout () hret

/-- A constructor that returns normally gives an object that satisfies the
handle invariant. -/
theorem ctor_handle_invariant (p : Platform) (port : String) (baudrate : Nat) (timeout : Int)
    (bytesize : bytesize_t) (parity : parity_t) (stopbits : stopbits_t)
    (flowcontrol : flowcontrol_t) (os : Os) (answers : List OpenAnswer) (k : ReconfAnswers)
    (hret : (SerialImpl.ctor p port baudrate timeout bytesize parity stopbits flowcontrol os
      answers k).out = .returned ()) :
    handle_invariant (SerialImpl.ctor p port baudrate timeout bytesize parity stopbits
      flowcontrol os answers k).self := by
  have hfresh : handle_invariant
      { port_ := port, fd_ := -1, is_open_ := false, xonxoff_ := true, rtscts_ := false,
        timeout_ := timeout, baudrate_ := baudrate, parity_ := parity,
        bytesize_ := bytesize, stopbits_ := stopbits, flowcontrol_ := flowcontrol } := by
    unfold handle_invariant
    simp
  unfold SerialImpl.ctor at hret ⊢
  simp only at hret ⊢
  split_ifs at hret ⊢ with hport
  · rcases open_keeps_handle_invariant p k answers _ os hfresh with h | h
    · exact h
    · exact absurd hret h.1
  · exact hfresh

/-! ## Write engine and unchecked primitives -/

/-- C5, at the failing inputs: on an open port, `write` with `::write`
answering -1 returns the count `2^64 - 1` and throws nothing, and
`reconfigurePort` with `tcsetattr` answering -1 returns normally, the control
block of the device left as it was.  Whatever `::write` and `tcsetattr`
answer, the two calls return normally. -/
theorem write_and_tcsetattr_failures_are_not_thrown :
    (∀ data : List Nat,
      (open_port.write sample_os data (-1)).out = .returned (2 ^ 64 - 1)) ∧
    (open_port.reconfigurePort linux sample_os { answers_ok with tcsetattr_ret := -1 }).out
      = .returned () ∧
    (open_port.reconfigurePort linux sample_os
      { answers_ok with tcsetattr_ret := -1 }).os.termios = sample_os.termios ∧
    (∀ (data : List Nat) (ret : Int),
      (open_port.write sample_os data ret).out = .returned (ret % 2 ^ 64).toNat) ∧
    (∀ ret : Int,
      (open_port.reconfigurePort linux sample_os { answers_ok with tcsetattr_ret := ret }).out
        = .returned ()) := by
  refine ⟨fun data => ?_, ?_, ?_, fun data ret => ?_, fun ret => ?_⟩
  · rfl
  · decide
  · decide
  · rfl
  · rfl

/-! ## Flow control -/

/-- What `reconfigurePort` does to the device and how it ends do not depend
on the member `flowcontrol_`. -/
theorem reconfigurePort_ignores_flowcontrol (p : Platform) (s : SerialImpl) (os : Os)
    (k : ReconfAnswers) (flowcontrol : flowcontrol_t) :
    (({ s with flowcontrol_ := flowcontrol } : SerialImpl).reconfigurePort p os k).os
      = (s.reconfigurePort p os k).os ∧
    (({ s with flowcontrol_ := flowcontrol } : SerialImpl).reconfigurePort p os k).out
      = (s.reconfigurePort p os k).out := by
  have h1 : ∀ os' o, setup_baud p { s with flowcontrol_ := flowcontrol } os' k o
      = setup_baud p s os' k o := fun _ _ => rfl
  have h2 : ∀ o, setup_line p { s with flowcontrol_ := flowcontrol } o = setup_line p s o :=
    fun _ => rfl
  unfold SerialImpl.reconfigurePort
  simp only [h1, h2]
  split_ifs <;> (try exact ⟨rfl, rfl⟩)
  all_goals
    split <;> (try exact ⟨rfl, rfl⟩)
    split <;> exact ⟨rfl, rfl⟩

/-- C3, at the failing inputs.  An object constructed with no flow control
and opened has, after the successful `reconfigurePort` of `open`, both `IXON`
and `IXOFF` set in the control block; after a successful `setFlowcontrol`
that enables hardware flow control, `CRTSCTS` is still clear.  On every
platform and for every object the control block that `reconfigurePort`
leaves is the same whatever `flowcontrol_` holds. -/
theorem flowcontrol_is_not_consulted :
    (SerialImpl.ctor linux "/dev/ttyS0" 9600 1000 .EIGHTBITS .PARITY_NONE .STOPBITS_ONE
      ⟨false, false⟩ sample_os [⟨3, 0⟩] answers_ok).out = .returned () ∧
    (SerialImpl.ctor linux "/dev/ttyS0" 9600 1000 .EIGHTBITS .PARITY_NONE .STOPBITS_ONE
      ⟨false, false⟩ sample_os [⟨3, 0⟩] answers_ok).self.flowcontrol_ = ⟨false, false⟩ ∧
    (SerialImpl.ctor linux "/dev/ttyS0" 9600 1000 .EIGHTBITS .PARITY_NONE .STOPBITS_ONE
      ⟨false, false⟩ sample_os [⟨3, 0⟩] answers_ok).os.termios.c_iflag
        &&& (linux.IXON ||| linux.IXOFF) = linux.IXON ||| linux.IXOFF ∧
    (open_port.setFlowcontrol linux sample_os ⟨false, true⟩ answers_ok).out = .returned () ∧
    (open_port.setFlowcontrol linux sample_os ⟨false, true⟩ answers_ok).self.flowcontrol_
      = ⟨false, true⟩ ∧
    (open_port.setFlowcontrol linux sample_os ⟨false, true⟩ answers_ok).os.termios.c_cflag
        &&& linux.CRTSCTS = 0 ∧
    (∀ (p : Platform) (s : SerialImpl) (os : Os) (k : ReconfAnswers)
        (flowcontrol : flowcontrol_t),
      (({ s with flowcontrol_ := flowcontrol } : SerialImpl).reconfigurePort p os k).os.termios
        = (s.reconfigurePort p os k).os.termios) := by
  refine ⟨by decide, by decide, by decide, by decide, by decide, by decide, ?_⟩
  intro p s os k flowcontrol
  rw [(reconfigurePort_ignores_flowcontrol p s os k flowcontrol).1]

/-! ## Timeout bookkeeping -/

/-- C10, at the failing inputs.  With one second left and half a second
spent in `select`, the timeout after the update is still one second, not
half a second; with a tenth of a second left and a tenth of a second spent
across a second boundary, the timeout after the update is one second, more
than was left before. -/
theorem update_timeout_does_not_borrow :
    update_timeout ⟨1, 0⟩ ⟨0, 0⟩ ⟨0, 500000000⟩ = ⟨1, 0⟩ ∧
    elapsed_usec ⟨0, 0⟩ ⟨0, 500000000⟩ = 500000 ∧
    (update_timeout ⟨1, 0⟩ ⟨0, 0⟩ ⟨0, 500000000⟩).usec
      ≠ max 0 (timeval.usec ⟨1, 0⟩ - elapsed_usec ⟨0, 0⟩ ⟨0, 500000000⟩) ∧
    update_timeout ⟨0, 100000⟩ ⟨0, 900000000⟩ ⟨1, 0⟩ = ⟨0, 1000000⟩ ∧
    elapsed_usec ⟨0, 900000000⟩ ⟨1, 0⟩ = 100000 ∧
    timeval.usec ⟨0, 100000⟩ < (update_timeout ⟨0, 100000⟩ ⟨0, 900000000⟩ ⟨1, 0⟩).usec := by
  decide

/-! ## Read engine: the buffer -/

/-- C2, at the failing input: a read of 4 bytes into a zeroed buffer, the
data arriving as the chunks 1,2 and 3,4.  The call returns 4, and the buffer
holds 3,4,0,0: the second chunk was stored over the first. -/
theorem read_stores_every_chunk_at_buffer_start :
    (open_port.read linux sample_os [0, 0, 0, 0] 4 [ready [1, 2], ready [3, 4]]).out
      = .returned 4 ∧
    (open_port.read linux sample_os [0, 0, 0, 0] 4 [ready [1, 2], ready [3, 4]]).st.buf
      = [3, 4, 0, 0] ∧
    (open_port.read linux sample_os [0, 0, 0, 0] 4 [ready [1, 2], ready [3, 4]]).st.buf.take 4
      ≠ [1, 2] ++ [3, 4] := by
  decide

/-! ## Closed port -/

/-- C7: on a closed port each of read, write, flush, flushInput, flushOutput,
sendBreak, setBreak, setRTS, setDTR, getCTS, getDSR, getRI and getCD, for
every argument and every answer the operating system could give, throws
`PortNotOpenedException`, invokes no primitive (the operating-system side,
log included, is as before; `read` also leaves the buffer and the answers
untouched) and leaves the object unchanged. -/
theorem closed_port_refuses_io (p : Platform) (s : SerialImpl) (os : Os)
    (hclosed : s.is_open_ = false) (buf : List Nat) (size : Nat)
    (answers : List SelectAnswer) (data : List Nat) (ret : Int) (duration : Int)
    (level : Bool) (status : Int) :
    ((s.read p os buf size answers).self = s ∧
      (s.read p os buf size answers).st.os = os ∧
      (s.read p os buf size answers).st.buf = buf ∧
      (s.read p os buf size answers).rest = answers ∧
      ∃ what, (s.read p os buf size answers).out
        = .threw (.str .PortNotOpenedException what)) ∧
    refused s os (s.write os data ret) ∧
    refused s os (s.flush os) ∧
    refused s os (s.flushInput os) ∧
    refused s os (s.flushOutput os) ∧
    refused s os (s.sendBreak os duration) ∧
    refused s os (s.setBreak os level) ∧
    refused s os (s.setRTS p os level) ∧
    refused s os (s.setDTR p os level) ∧
    refused s os (s.getCTS p os status) ∧
    refused s os (s.getDSR p os status) ∧
    refused s os (s.getRI p os status) ∧
    refused s os (s.getCD p os status) := by
  simp [refused, SerialImpl.read, SerialImpl.write, SerialImpl.flush, SerialImpl.flushInput,
    SerialImpl.flushOutput, SerialImpl.sendBreak, SerialImpl.setBreak, SerialImpl.setRTS,
    SerialImpl.setDTR, SerialImpl.getCTS, SerialImpl.getDSR, SerialImpl.getRI,
    SerialImpl.getCD, hclosed]

/-- Witness for C7: the thirteen calls on the closed object `closed_port`. -/
theorem closed_port_refuses_io_witness :
    closed_port.is_open_ = false ∧
    ((closed_port.read linux sample_os [0, 0] 2 [ready [7]]).self = closed_port ∧
      (closed_port.read linux sample_os [0, 0] 2 [ready [7]]).st.os = sample_os ∧
      (closed_port.read linux sample_os [0, 0] 2 [ready [7]]).st.buf = [0, 0] ∧
      (closed_port.read linux sample_os [0, 0] 2 [ready [7]]).rest = [ready [7]] ∧
      ∃ what, (closed_port.read linux sample_os [0, 0] 2 [ready [7]]).out
        = .threw (.str .PortNotOpenedException what)) ∧
    refused closed_port sample_os (closed_port.write sample_os [104, 105] 2) ∧
    refused closed_port sample_os (closed_port.flush sample_os) ∧
    refused closed_port sample_os (closed_port.flushInput sample_os) ∧
    refused closed_port sample_os (closed_port.flushOutput sample_os) ∧
    refused closed_port sample_os (closed_port.sendBreak sample_os 100) ∧
    refused closed_port sample_os (closed_port.setBreak sample_os true) ∧
    refused closed_port sample_os (closed_port.setRTS linux sample_os true) ∧
    refused closed_port sample_os (closed_port.setDTR linux sample_os true) ∧
    refused closed_port sample_os (closed_port.getCTS linux sample_os 32) ∧
    refused closed_port sample_os (closed_port.getDSR linux sample_os 32) ∧
    refused closed_port sample_os (closed_port.getRI linux sample_os 32) ∧
    refused closed_port sample_os (closed_port.getCD linux sample_os 32) :=
  ⟨rfl, closed_port_refuses_io linux closed_port sample_os rfl [0, 0] 2 [ready [7]]
    [104, 105] 2 100 true 32⟩

/-! ## Read engine: the count -/

theorem read_counts_append (l₁ l₂ : List OsCall) :
    read_counts (l₁ ++ l₂) = read_counts l₁ + read_counts l₂ := by
  induction l₁ with
  | nil => simp [read_counts]
  | cons c l ih =>
    cases c <;> simp [read_counts, ih]
    omega

/-- The primitives of `wait_ready` include no `::read`, and `wait_ready`
leaves the buffer and `bytes_read` alone. -/
theorem wait_ready_spec (p : Platform) (fd : Int) (st : ReadState) (a : SelectAnswer) :
    (∃ made, (wait_ready p fd st a).os.calls = st.os.calls ++ made ∧ read_counts made = 0) ∧
    (wait_ready p fd st a).bytes_read = st.bytes_read ∧
    (wait_ready p fd st a).buf = st.buf := by
  unfold wait_ready
  split_ifs
  · exact ⟨⟨[.select fd st.timeout], by simp [Os.log], by simp [read_counts]⟩, rfl, rfl⟩
  · exact ⟨⟨[.get_time_now, .select fd st.timeout, .get_time_now], by simp [Os.log],
      by simp [read_counts]⟩, rfl, rfl⟩

theorem read_turn_sound (p : Platform) (fd : Int) (size : Nat) (st st' : ReadState)
    (a : SelectAnswer)
    (h : read_turn p fd size st a = .continue_ st' ∨ read_turn p fd size st a = .break_ st') :
    turn_ok size st st' := by
  obtain ⟨⟨made, hcalls, hzero⟩, hbytes, -⟩ := wait_ready_spec p fd st a
  unfold read_turn at h
  generalize wait_ready p fd st a = w at h hcalls hbytes
  simp only at h
  split_ifs at h with h1 h2 h3 h4 h5 h6 h7 h8
  all_goals simp only [Turn.continue_.injEq, Turn.break_.injEq, or_false, false_or, or_self, reduceCtorEq] at h
  all_goals subst h
  · exact ⟨made, hcalls, by simp [hzero, hbytes], by simp [hbytes]⟩
  · exact ⟨made, hcalls, by simp [hzero, hbytes], by simp [hbytes]⟩
  · refine ⟨made ++ [.os_read fd (size - w.bytes_read) a.rd.ret], by simp [Os.log, hcalls], ?_, ?_⟩
    · simp only [read_counts_append, read_counts, hzero, hbytes]
      push_cast
      omega
    · intro _; exact le_of_eq h6
  · refine ⟨made ++ [.os_read fd (size - w.bytes_read) a.rd.ret], by simp [Os.log, hcalls], ?_, ?_⟩
    · simp only [read_counts_append, read_counts, hzero, hbytes]
      push_cast
      omega
    · intro _; exact le_of_lt h7

theorem read_loop_done (p : Platform) (s : SerialImpl) (size : Nat) (st : ReadState)
    (answers : List SelectAnswer) (h : ¬ st.bytes_read < size) :
    read_loop p s size st answers = ⟨s, st, .returned st.bytes_read, answers⟩ := by
  unfold read_loop
  simp [h]

theorem read_loop_nil (p : Platform) (s : SerialImpl) (size : Nat) (st : ReadState)
    (h : st.bytes_read < size) :
    read_loop p s size st [] = ⟨s, st, .pending, []⟩ := by
  unfold read_loop
  simp [h]

theorem read_loop_cons (p : Platform) (s : SerialImpl) (size : Nat) (st : ReadState)
    (a : SelectAnswer) (rest : List SelectAnswer) (h : st.bytes_read < size) :
    read_loop p s size st (a :: rest) =
      match read_turn p s.fd_ size st a with
      | .continue_ st => read_loop p s size st rest
      | .break_ st => ⟨s, st, .returned st.bytes_read, rest⟩
      | .throw_ st e => ⟨s, st, .threw e, rest⟩ := by
  rw [read_loop]
  simp [h]

theorem read_loop_sound (p : Platform) (s : SerialImpl) (size : Nat)
    (answers : List SelectAnswer) :
    ∀ (st : ReadState) (k : Nat), st.bytes_read ≤ size →
      (read_loop p s size st answers).out = .returned k →
      k ≤ size ∧ ∃ made, (read_loop p s size st answers).st.os.calls = st.os.calls ++ made ∧
        (k : Int) = st.bytes_read + read_counts made := by
  induction answers with
  | nil =>
    intro st k hle h
    by_cases hlt : st.bytes_read < size
    · rw [read_loop_nil p s size st hlt] at h
      simp at h
    · rw [read_loop_done p s size st [] hlt] at h ⊢
      simp only [Outcome.returned.injEq] at h
      subst h
      exact ⟨hle, [], by simp, by simp [read_counts]⟩
  | cons a rest ih =>
    intro st k hle h
    by_cases hlt : st.bytes_read < size
    · rw [read_loop_cons p s size st a rest hlt] at h ⊢
      cases hturn : read_turn p s.fd_ size st a with
      | continue_ st' =>
        simp only [hturn] at h ⊢
        obtain ⟨made, hcalls, hbytes, hsize⟩ :=
          read_turn_sound p s.fd_ size st st' a (Or.inl hturn)
        obtain ⟨hk, made', hcalls', hbytes'⟩ := ih st' k (hsize hle) h
        refine ⟨hk, made ++ made', ?_, ?_⟩
        · rw [hcalls', hcalls, List.append_assoc]
        · rw [hbytes', hbytes, read_counts_append]; ring
      | break_ st' =>
        simp only [hturn] at h ⊢
        obtain ⟨made, hcalls, hbytes, hsize⟩ :=
          read_turn_sound p s.fd_ size st st' a (Or.inr hturn)
        simp only [Outcome.returned.injEq] at h
        subst h
        exact ⟨hsize hle, made, hcalls, hbytes⟩
      | throw_ st' e =>
        simp only [hturn] at h
        simp at h
    · rw [read_loop_done p s size st _ hlt] at h ⊢
      simp only [Outcome.returned.injEq] at h
      subst h
      exact ⟨hle, [], by simp, by simp [read_counts]⟩

theorem calls_made_append (os : Os) (st : ReadState) (made : List OsCall)
    (h : st.os.calls = os.calls ++ made) : calls_made os st.os = made := by
  simp [calls_made, h]

/-- C1: whenever `read` returns normally (which it does on an open port
only), for every size, timeout and sequence of answers of `select` and
`::read`, the result `k` is at most `size`, equals the sum of the counts
returned by the `::read` calls made during the call, and is `size` only if
those counts add up to `size`. -/
theorem read_returns_count_of_bytes_read (p : Platform) (s : SerialImpl) (os : Os)
    (buf : List Nat) (size : Nat) (answers : List SelectAnswer) (k : Nat)
    (hret : (s.read p os buf size answers).out = .returned k) :
    k ≤ size ∧
    (k : Int) = read_counts (calls_made os (s.read p os buf size answers).st.os) ∧
    (k = size →
      read_counts (calls_made os (s.read p os buf size answers).st.os) = size) := by
  have key : k ≤ size ∧
      (k : Int) = read_counts (calls_made os (s.read p os buf size answers).st.os) := by
    by_cases hclosed : s.is_open_ = false
    · simp [SerialImpl.read, hclosed] at hret
    · have hread : s.read p os buf size answers
          = read_loop p s size ⟨buf, 0, initial_timeout s.timeout_, os⟩ answers := by
        simp [SerialImpl.read, hclosed]
      rw [hread] at hret ⊢
      obtain ⟨hk, made, hcalls, hbytes⟩ :=
        read_loop_sound p s size answers ⟨buf, 0, initial_timeout s.timeout_, os⟩ k
          (Nat.zero_le _) hret
      refine ⟨hk, ?_⟩
      rw [calls_made_append os _ made hcalls, hbytes]
      simp
  refine ⟨key.1, key.2, fun hk => ?_⟩
  rw [← key.2, hk]

theorem read_loop_pending (p : Platform) (s : SerialImpl) (size : Nat)
    (pre more : List SelectAnswer) :
    ∀ st : ReadState, (read_loop p s size st pre).out = .pending →
      (read_loop p s size st pre).st.bytes_read < size ∧
      read_loop p s size st (pre ++ more)
        = read_loop p s size (read_loop p s size st pre).st more := by
  induction pre with
  | nil =>
    intro st h
    by_cases hlt : st.bytes_read < size
    · rw [read_loop_nil p s size st hlt]
      exact ⟨hlt, rfl⟩
    · rw [read_loop_done p s size st [] hlt] at h
      simp at h
  | cons a rest ih =>
    intro st h
    by_cases hlt : st.bytes_read < size
    · rw [List.cons_append, read_loop_cons p s size st a rest hlt,
        read_loop_cons p s size st a (rest ++ more) hlt]
      rw [read_loop_cons p s size st a rest hlt] at h
      cases hturn : read_turn p s.fd_ size st a with
      | continue_ st' =>
        simp only [hturn] at h ⊢
        exact ih st' h
      | break_ st' => simp [hturn] at h
      | throw_ st' e => simp [hturn] at h
    · rw [read_loop_done p s size st _ hlt] at h
      simp at h

theorem read_turn_no_data (p : Platform) (fd : Int) (size : Nat) (st : ReadState)
    (a : SelectAnswer) (hr : 0 < a.r) (hset : a.isset = true) (hnone : a.rd.ret < 1) :
    ∃ st', read_turn p fd size st a = .throw_ st' (.str .SerialExecption
        "device reports readiness to read but returned no data (device disconnected?)") ∧
      st'.os.calls.getLast? = some (.os_read fd (size - st.bytes_read) a.rd.ret) := by
  obtain ⟨-, hbytes, -⟩ := wait_ready_spec p fd st a
  have h1 : ¬ a.r < 0 := by omega
  have h2 : ¬ a.r = 0 := by omega
  refine ⟨{ wait_ready p fd st a with
      os := (wait_ready p fd st a).os.log
        (.os_read fd (size - (wait_ready p fd st a).bytes_read) a.rd.ret),
      buf := match a.rd with
        | .data chunk => store_at (wait_ready p fd st a).buf 0 chunk
        | .failed => (wait_ready p fd st a).buf }, ?_, ?_⟩
  · unfold read_turn
    simp only [h1, h2, hset, hnone, if_true, if_false]
  · simp [Os.log, hbytes]

/-- C8: let a call of `read` be in its loop after the answers `pre`, with
whatever count accumulated so far.  If the next `select` reports `fd_` ready
and the `::read` that follows returns less than 1, the call throws the
exception "device reports readiness to read but returned no data" instead of
returning the count; it consumes no further answer, and that `::read` is the
last primitive it invokes. -/
theorem read_ready_without_data_throws (p : Platform) (s : SerialImpl) (os : Os)
    (buf : List Nat) (size : Nat) (pre : List SelectAnswer) (a : SelectAnswer)
    (rest : List SelectAnswer)
    (hpre : (s.read p os buf size pre).out = .pending)
    (hr : 0 < a.r) (hset : a.isset = true) (hnone : a.rd.ret < 1) :
    (s.read p os buf size (pre ++ a :: rest)).out = .threw (.str .SerialExecption
      "device reports readiness to read but returned no data (device disconnected?)") ∧
    (s.read p os buf size (pre ++ a :: rest)).rest = rest ∧
    (s.read p os buf size (pre ++ a :: rest)).st.os.calls.getLast?
      = some (.os_read s.fd_ (size - (s.read p os buf size pre).st.bytes_read) a.rd.ret) := by
  by_cases hclosed : s.is_open_ = false
  · simp [SerialImpl.read, hclosed] at hpre
  · have hread : ∀ answers, s.read p os buf size answers
        = read_loop p s size ⟨buf, 0, initial_timeout s.timeout_, os⟩ answers := by
      intro answers
      simp [SerialImpl.read, hclosed]
    rw [hread] at hpre ⊢
    rw [hread]
    obtain ⟨hlt, happ⟩ := read_loop_pending p s size pre (a :: rest) _ hpre
    obtain ⟨st', hturn, hlast⟩ :=
      read_turn_no_data p s.fd_ size
        (read_loop p s size ⟨buf, 0, initial_timeout s.timeout_, os⟩ pre).st a hr hset hnone
    rw [happ, read_loop_cons p s size _ a rest hlt, hturn]
    exact ⟨rfl, rfl, hlast⟩

/-- Witness for C8: two bytes accumulated, then a ready descriptor that
delivers nothing. -/
theorem read_ready_without_data_throws_witness :
    (open_port.read linux sample_os [0, 0, 0, 0] 4 [ready [1, 2]]).out = .pending ∧
    (open_port.read linux sample_os [0, 0, 0, 0] 4 [ready [1, 2]]).st.bytes_read = 2 ∧
    (open_port.read linux sample_os [0, 0, 0, 0] 4
      ([ready [1, 2]] ++ ready [] :: [ready [3, 4]])).out = .threw (.str .SerialExecption
      "device reports readiness to read but returned no data (device disconnected?)") ∧
    (open_port.read linux sample_os [0, 0, 0, 0] 4
      ([ready [1, 2]] ++ ready [] :: [ready [3, 4]])).rest = [ready [3, 4]] ∧
    (open_port.read linux sample_os [0, 0, 0, 0] 4
      ([ready [1, 2]] ++ ready [] :: [ready [3, 4]])).st.os.calls.getLast?
      = some (.os_read open_port.fd_
          (4 - (open_port.read linux sample_os [0, 0, 0, 0] 4 [ready [1, 2]]).st.bytes_read)
          (ready []).rd.ret) :=
  ⟨by decide, by decide,
    read_ready_without_data_throws linux open_port sample_os [0, 0, 0, 0] 4 [ready [1, 2]]
      (ready []) [ready [3, 4]] (by decide) (by decide) (by decide) (by decide)⟩

/-- Witness for C1: chunks of two bytes and one byte, then a timeout. -/
theorem read_returns_count_of_bytes_read_witness :
    (open_port.read linux sample_os [0, 0, 0, 0] 4 [ready [1, 2], ready [3], timed_out]).out
      = .returned 3 ∧
    (3 ≤ 4 ∧
    ((3 : Nat) : Int) = read_counts (calls_made sample_os
      (open_port.read linux sample_os [0, 0, 0, 0] 4
        [ready [1, 2], ready [3], timed_out]).st.os) ∧
    (3 = 4 →
      read_counts (calls_made sample_os
        (open_port.read linux sample_os [0, 0, 0, 0] 4
          [ready [1, 2], ready [3], timed_out]).st.os) = (4 : Nat))) :=
  ⟨by decide,
    read_returns_count_of_bytes_read linux open_port sample_os [0, 0, 0, 0] 4
      [ready [1, 2], ready [3], timed_out] 3 (by decide)⟩

/-! ## Port configurator: idempotence -/

theorem bitop_id : BitOp (fun x => x) :=
  ⟨fun _ => true, fun _ => false, fun x i => by simp⟩

theorem bitop_set (m : Nat) : BitOp (fun x => set_bits x m) :=
  ⟨fun _ => true, fun i => m.testBit i, fun x i => by simp [set_bits, Nat.testBit_lor]⟩

theorem bitop_clear (m : Nat) : BitOp (fun x => clear_bits x m) :=
  ⟨fun i => (compl_ul m).testBit i, fun _ => false, fun x i => by
    simp [clear_bits, Nat.testBit_land]⟩

theorem bitop_clear_ifdef (m : Option Nat) : BitOp (fun x => clear_bits_ifdef x m) := by
  cases m with
  | none => exact bitop_id
  | some m => exact bitop_clear m

theorem bitop_comp {f g : Nat → Nat} (hf : BitOp f) (hg : BitOp g) :
    BitOp (fun x => g (f x)) := by
  obtain ⟨c, d, h⟩ := hf
  obtain ⟨c', d', h'⟩ := hg
  refine ⟨fun i => c i && c' i, fun i => (d i && c' i) || d' i, fun x i => ?_⟩
  simp only [h', h]
  cases x.testBit i <;> cases c i <;> cases d i <;> cases c' i <;> cases d' i <;> rfl

theorem bitop_idem {f : Nat → Nat} (hf : BitOp f) (x : Nat) : f (f x) = f x := by
  obtain ⟨c, d, h⟩ := hf
  apply Nat.eq_of_testBit_eq
  intro i
  rw [h (f x) i, h x i]
  cases x.testBit i <;> cases c i <;> cases d i <;> rfl

theorem bitop_const (c : Nat) : BitOp (fun _ => c) :=
  ⟨fun _ => false, fun i => c.testBit i, fun x i => by simp⟩

theorem bitop_and (c : Nat) : BitOp (fun x => x &&& c) :=
  ⟨fun i => c.testBit i, fun _ => false, fun x i => by simp [Nat.testBit_land]⟩

theorem bitop_or (m : Nat) : BitOp (fun x => x ||| m) :=
  ⟨fun _ => true, fun i => m.testBit i, fun x i => by simp [Nat.testBit_lor]⟩

theorem flagfn_id : FlagFn (fun t => t) :=
  ⟨_, _, _, _, _, _, bitop_id, bitop_id, bitop_id, bitop_id, bitop_id, bitop_id, fun _ => rfl⟩

theorem flagfn_iflag {f : Nat → Nat} (hf : BitOp f) :
    FlagFn (fun t => { t with c_iflag := f t.c_iflag }) :=
  ⟨f, _, _, _, _, _, hf, bitop_id, bitop_id, bitop_id, bitop_id, bitop_id, fun _ => rfl⟩

theorem flagfn_oflag {f : Nat → Nat} (hf : BitOp f) :
    FlagFn (fun t => { t with c_oflag := f t.c_oflag }) :=
  ⟨_, f, _, _, _, _, bitop_id, hf, bitop_id, bitop_id, bitop_id, bitop_id, fun _ => rfl⟩

theorem flagfn_cflag {f : Nat → Nat} (hf : BitOp f) :
    FlagFn (fun t => { t with c_cflag := f t.c_cflag }) :=
  ⟨_, _, f, _, _, _, bitop_id, bitop_id, hf, bitop_id, bitop_id, bitop_id, fun _ => rfl⟩

theorem flagfn_lflag {f : Nat → Nat} (hf : BitOp f) :
    FlagFn (fun t => { t with c_lflag := f t.c_lflag }) :=
  ⟨_, _, _, f, _, _, bitop_id, bitop_id, bitop_id, hf, bitop_id, bitop_id, fun _ => rfl⟩

theorem flagfn_ispeed {f : Nat → Nat} (hf : BitOp f) :
    FlagFn (fun t => { t with c_ispeed := f t.c_ispeed }) :=
  ⟨_, _, _, _, f, _, bitop_id, bitop_id, bitop_id, bitop_id, hf, bitop_id, fun _ => rfl⟩

theorem flagfn_ospeed {f : Nat → Nat} (hf : BitOp f) :
    FlagFn (fun t => { t with c_ospeed := f t.c_ospeed }) :=
  ⟨_, _, _, _, _, f, bitop_id, bitop_id, bitop_id, bitop_id, bitop_id, hf, fun _ => rfl⟩

theorem flagfn_comp {F G : Termios → Termios} (hF : FlagFn F) (hG : FlagFn G) :
    FlagFn (fun t => G (F t)) := by
  obtain ⟨fi, fo, fc, fl, fsi, fso, hi, ho, hc, hl, hsi, hso, h⟩ := hF
  obtain ⟨gi, go, gc, gl, gsi, gso, hi', ho', hc', hl', hsi', hso', h'⟩ := hG
  exact ⟨_, _, _, _, _, _, bitop_comp hi hi', bitop_comp ho ho', bitop_comp hc hc',
    bitop_comp hl hl', bitop_comp hsi hsi', bitop_comp hso hso', fun t => by simp only [h, h']⟩

theorem cfsetispeed_flagfn (p : Platform) (speed : Nat) :
    FlagFn (fun t => cfsetispeed p t speed) := by
  unfold cfsetispeed
  cases p.libc with
  | bsd => exact flagfn_ispeed (bitop_const speed)
  | glibc =>
    by_cases hrej : glibc_speed_rejected p speed = true
    · simp only [hrej, if_true]
      exact flagfn_id
    · simp only [hrej, if_false]
      by_cases hzero : speed = 0
      · simp only [hzero, if_true]
        have h := flagfn_comp (flagfn_ispeed (bitop_const 0)) (flagfn_iflag (bitop_or p.IBAUD0))
        exact h
      · simp only [hzero, if_false]
        have h := flagfn_comp (flagfn_comp (flagfn_comp
          (flagfn_ispeed (bitop_const speed))
          (flagfn_iflag (bitop_and (compl_u p.IBAUD0))))
          (flagfn_cflag (bitop_and (compl_u (p.CBAUD ||| p.CBAUDEX)))))
          (flagfn_cflag (bitop_or speed))
        exact h

theorem cfsetospeed_flagfn (p : Platform) (speed : Nat) :
    FlagFn (fun t => cfsetospeed p t speed) := by
  unfold cfsetospeed
  cases p.libc with
  | bsd => exact flagfn_ospeed (bitop_const speed)
  | glibc =>
    by_cases hrej : glibc_speed_rejected p speed = true
    · simp only [hrej, if_true]
      exact flagfn_id
    · simp only [hrej, if_false]
      have h := flagfn_comp (flagfn_comp
        (flagfn_ospeed (bitop_const speed))
        (flagfn_cflag (bitop_and (compl_u (p.CBAUD ||| p.CBAUDEX)))))
        (flagfn_cflag (bitop_or speed))
      exact h

theorem cfsetspeed_flagfn (p : Platform) (speed : Nat) :
    FlagFn (fun t => cfsetspeed p t speed) := by
  unfold cfsetspeed
  cases p.libc with
  | bsd =>
    have h := flagfn_comp (flagfn_ispeed (bitop_const speed)) (flagfn_ospeed (bitop_const speed))
    exact h
  | glibc =>
    cases glibc_find_speed p speed glibc_speed_rates with
    | none => exact flagfn_id
    | some b => exact flagfn_comp (cfsetispeed_flagfn p b) (cfsetospeed_flagfn p b)

theorem set_speed_flagfn (p : Platform) (baud : Nat) : FlagFn (set_speed p baud) := by
  show FlagFn (fun t => set_speed p baud t)
  unfold set_speed
  by_cases hbsd : p.BSD_SOURCE = true
  · simp only [hbsd, if_true]
    exact cfsetspeed_flagfn p baud
  · simp only [hbsd, if_false]
    exact flagfn_comp (cfsetispeed_flagfn p baud) (cfsetospeed_flagfn p baud)

theorem raw_mode_flagfn (p : Platform) : FlagFn (raw_mode p) := by
  have h := flagfn_comp (flagfn_comp (flagfn_comp (flagfn_comp (flagfn_comp
    (flagfn_cflag (bitop_set (p.CLOCAL ||| p.CREAD)))
    (flagfn_lflag (bitop_clear
      (p.ICANON ||| p.ECHO ||| p.ECHOE ||| p.ECHOK ||| p.ECHONL ||| p.ISIG ||| p.IEXTEN))))
    (flagfn_oflag (bitop_clear p.OPOST)))
    (flagfn_iflag (bitop_clear (p.INLCR ||| p.IGNCR ||| p.ICRNL ||| p.IGNBRK))))
    (flagfn_iflag (bitop_clear_ifdef p.IUCLC)))
    (flagfn_iflag (bitop_clear_ifdef p.PARMRK))
  exact h

theorem setup_char_len_flagfn (p : Platform) (b : bytesize_t)
    (h : bytesize_supported b = true) :
    ∃ G, FlagFn G ∧ ∀ o, setup_char_len p b o = .ok (G o) := by
  cases b with
  | FIVEBITS =>
    exact ⟨_, flagfn_comp (flagfn_cflag (bitop_clear p.CSIZE)) (flagfn_cflag (bitop_set p.CS5)),
      fun _ => rfl⟩
  | SIXBITS =>
    exact ⟨_, flagfn_comp (flagfn_cflag (bitop_clear p.CSIZE)) (flagfn_cflag (bitop_set p.CS6)),
      fun _ => rfl⟩
  | SEVENBITS =>
    exact ⟨_, flagfn_comp (flagfn_cflag (bitop_clear p.CSIZE)) (flagfn_cflag (bitop_set p.CS7)),
      fun _ => rfl⟩
  | EIGHTBITS =>
    exact ⟨_, flagfn_comp (flagfn_cflag (bitop_clear p.CSIZE)) (flagfn_cflag (bitop_set p.CS8)),
      fun _ => rfl⟩
  | unlisted raw => simp [bytesize_supported] at h

theorem setup_stopbits_flagfn (p : Platform) (b : stopbits_t)
    (h : stopbits_supported b = true) :
    ∃ G, FlagFn G ∧ ∀ o, setup_stopbits p b o = .ok (G o) := by
  cases b with
  | STOPBITS_ONE => exact ⟨_, flagfn_cflag (bitop_clear p.CSTOPB), fun _ => rfl⟩
  | STOPBITS_ONE_POINT_FIVE => exact ⟨_, flagfn_cflag (bitop_set p.CSTOPB), fun _ => rfl⟩
  | STOPBITS_TWO => exact ⟨_, flagfn_cflag (bitop_set p.CSTOPB), fun _ => rfl⟩
  | unlisted raw => simp [stopbits_supported] at h

theorem setup_parity_flagfn (p : Platform) (b : parity_t)
    (h : parity_supported b = true) :
    ∃ G, FlagFn G ∧ ∀ o, setup_parity p b o = .ok (G o) := by
  cases b with
  | PARITY_NONE =>
    exact ⟨_, flagfn_comp (flagfn_iflag (bitop_clear (p.INPCK ||| p.ISTRIP)))
      (flagfn_cflag (bitop_clear (p.PARENB ||| p.PARODD))), fun _ => rfl⟩
  | PARITY_EVEN =>
    exact ⟨_, flagfn_comp (flagfn_comp (flagfn_iflag (bitop_clear (p.INPCK ||| p.ISTRIP)))
      (flagfn_cflag (bitop_clear p.PARODD))) (flagfn_cflag (bitop_set p.PARENB)), fun _ => rfl⟩
  | PARITY_ODD =>
    exact ⟨_, flagfn_comp (flagfn_iflag (bitop_clear (p.INPCK ||| p.ISTRIP)))
      (flagfn_cflag (bitop_set (p.PARENB ||| p.PARODD))), fun _ => rfl⟩
  | PARITY_MARK => simp [parity_supported] at h
  | PARITY_SPACE => simp [parity_supported] at h
  | unlisted raw => simp [parity_supported] at h

theorem setup_xonxoff_flagfn (p : Platform) (b : Bool) : FlagFn (setup_xonxoff p b) := by
  show FlagFn (fun o => setup_xonxoff p b o)
  unfold setup_xonxoff
  cases p.IXANY <;> cases b
  · exact flagfn_iflag (bitop_clear (p.IXON ||| p.IXOFF))
  · exact flagfn_iflag (bitop_set (p.IXON ||| p.IXOFF))
  · exact flagfn_iflag (bitop_clear _)
  · exact flagfn_iflag (bitop_set (p.IXON ||| p.IXOFF))

theorem setup_rtscts_flagfn (p : Platform) (b : Bool) : FlagFn (setup_rtscts p b) := by
  show FlagFn (fun o => setup_rtscts p b o)
  unfold setup_rtscts
  cases b
  · exact flagfn_cflag (bitop_clear p.CRTSCTS)
  · exact flagfn_cflag (bitop_set p.CRTSCTS)

theorem set_zero_twice (l : List Nat) (m t : Nat) :
    (((l.set m 0).set t 0).set m 0).set t 0 = (l.set m 0).set t 0 := by
  apply List.ext_getElem
  · simp
  · intro n h₁ h₂
    simp only [List.getElem_set]
    split_ifs <;> rfl

theorem setup_line_flags (p : Platform) (s : SerialImpl) (hsup : line_supported s = true)
    (baud : Nat) :
    ∃ fi fo fc fl fsi fso : Nat → Nat,
      BitOp fi ∧ BitOp fo ∧ BitOp fc ∧ BitOp fl ∧ BitOp fsi ∧ BitOp fso ∧
      ∀ t : Termios,
        setup_line p s (set_speed p baud (raw_mode p t))
          = .ok ⟨fi t.c_iflag, fo t.c_oflag, fc t.c_cflag, fl t.c_lflag,
              (t.c_cc.set p.VMIN 0).set p.VTIME 0, fsi t.c_ispeed, fso t.c_ospeed⟩ := by
  simp only [line_supported, Bool.and_eq_true] at hsup
  obtain ⟨⟨hb, hs⟩, hp⟩ := hsup
  obtain ⟨G1, hG1, e1⟩ := setup_char_len_flagfn p _ hb
  obtain ⟨G2, hG2, e2⟩ := setup_stopbits_flagfn p _ hs
  obtain ⟨G3, hG3, e3⟩ := setup_parity_flagfn p _ hp
  obtain ⟨fi, fo, fc, fl, fsi, fso, hi, ho, hc, hl, hsi, hso, hG⟩ :=
    flagfn_comp (flagfn_comp (flagfn_comp (flagfn_comp (flagfn_comp (flagfn_comp
      (raw_mode_flagfn p) (set_speed_flagfn p baud)) hG1) hG2) hG3)
      (setup_xonxoff_flagfn p s.xonxoff_)) (setup_rtscts_flagfn p s.rtscts_)
  refine ⟨fi, fo, fc, fl, fsi, fso, hi, ho, hc, hl, hsi, hso, fun t => ?_⟩
  have h := hG t
  simp only at h
  simp only [setup_line, e1, e2, e3, h, setup_cc]

theorem reconfigurePort_standard (p : Platform) (s : SerialImpl) (os : Os) (k : ReconfAnswers)
    (baud : Nat) (t' : Termios) (hfd : s.fd_ ≠ -1) (hg : k.tcgetattr_ret ≠ -1)
    (hbaud : standard_baud p s.baudrate_ = some baud)
    (hline : setup_line p s (set_speed p baud (raw_mode p os.termios)) = .ok t') :
    s.reconfigurePort p os k
      = ⟨s, ⟨if k.tcsetattr_ret = 0 then t' else os.termios,
          os.calls ++ [.tcgetattr s.fd_, .tcsetattr s.fd_ t']⟩, .returned ()⟩ := by
  unfold SerialImpl.reconfigurePort
  simp [hfd, hg, setup_baud, hbaud, Os.log, hline]

/-- C9: for every platform (its constants, and glibc or BSD libc for the
speed functions), every line configuration that `reconfigurePort` supports
with a standard baud rate, and every control block of the device, when
`tcgetattr` and `tcsetattr` succeed both times, a second `reconfigurePort`
returns normally like the first and leaves the control block (flag words,
control characters with `VMIN` and `VTIME`, and speeds) exactly as the first
left it.  The same holds of the function from control block to control block
that `reconfigurePort` computes between `tcgetattr` and `tcsetattr`: applied
to its own result, it gives that result again. -/
theorem reconfigurePort_idempotent (p : Platform) (s : SerialImpl) (os : Os)
    (k₁ k₂ : ReconfAnswers) (hfd : s.fd_ ≠ -1) (hsup : line_supported s = true)
    (hbaud : (standard_baud p s.baudrate_).isSome = true)
    (hg₁ : k₁.tcgetattr_ret ≠ -1) (hs₁ : k₁.tcsetattr_ret = 0)
    (hg₂ : k₂.tcgetattr_ret ≠ -1) (hs₂ : k₂.tcsetattr_ret = 0) :
    (s.reconfigurePort p os k₁).out = .returned () ∧
    ((s.reconfigurePort p os k₁).self.reconfigurePort p
      (s.reconfigurePort p os k₁).os k₂).out = .returned () ∧
    ((s.reconfigurePort p os k₁).self.reconfigurePort p
      (s.reconfigurePort p os k₁).os k₂).os.termios
      = (s.reconfigurePort p os k₁).os.termios ∧
    (∀ (baud : Nat) (t t' : Termios), standard_baud p s.baudrate_ = some baud →
      setup_line p s (set_speed p baud (raw_mode p t)) = .ok t' →
      setup_line p s (set_speed p baud (raw_mode p t')) = .ok t') := by
  have hpure : ∀ (baud : Nat) (t t' : Termios), standard_baud p s.baudrate_ = some baud →
      setup_line p s (set_speed p baud (raw_mode p t)) = .ok t' →
      setup_line p s (set_speed p baud (raw_mode p t')) = .ok t' := by
    intro baud t t' _ ht
    obtain ⟨fi, fo, fc, fl, fsi, fso, hi, ho, hc, hl, hsi, hso, h⟩ :=
      setup_line_flags p s hsup baud
    rw [h t] at ht
    injection ht with ht
    subst ht
    rw [h]
    simp only [bitop_idem hi, bitop_idem ho, bitop_idem hc, bitop_idem hl,
      bitop_idem hsi, bitop_idem hso, set_zero_twice]
  have hrun : (s.reconfigurePort p os k₁).out = .returned () ∧
      ((s.reconfigurePort p os k₁).self.reconfigurePort p
        (s.reconfigurePort p os k₁).os k₂).out = .returned () ∧
      ((s.reconfigurePort p os k₁).self.reconfigurePort p
        (s.reconfigurePort p os k₁).os k₂).os.termios
        = (s.reconfigurePort p os k₁).os.termios := by
    obtain ⟨baud, hbaud⟩ := Option.isSome_iff_exists.mp hbaud
    obtain ⟨fi, fo, fc, fl, fsi, fso, hi, ho, hc, hl, hsi, hso, h⟩ :=
      setup_line_flags p s hsup baud
    rw [reconfigurePort_standard p s os k₁ baud _ hfd hg₁ hbaud (h os.termios)]
    simp only [hs₁, if_true]
    rw [reconfigurePort_standard p s _ k₂ baud _ hfd hg₂ hbaud (h _)]
    simp only [hs₂, if_true, bitop_idem hi, bitop_idem ho, bitop_idem hc, bitop_idem hl,
      bitop_idem hsi, bitop_idem hso, set_zero_twice, and_self]
  exact ⟨hrun.1, hrun.2.1, hrun.2.2, hpure⟩

/-- Witness for C9: the open port on a device in cooked mode at 38400 baud.
The first `reconfigurePort` changes the control block (`c_cflag` goes from
02277 to 06275: `CLOCAL` set and the speed field rewritten from `B38400` to
`B9600`), the second changes nothing. -/
theorem reconfigurePort_idempotent_witness :
    (open_port.reconfigurePort linux cooked_os answers_ok).os.termios ≠ cooked_os.termios ∧
    (open_port.reconfigurePort linux cooked_os answers_ok).os.termios.c_cflag = 0o6275 ∧
    (open_port.reconfigurePort linux cooked_os answers_ok).out = .returned () ∧
    ((open_port.reconfigurePort linux cooked_os answers_ok).self.reconfigurePort linux
      (open_port.reconfigurePort linux cooked_os answers_ok).os answers_ok).out
      = .returned () ∧
    ((open_port.reconfigurePort linux cooked_os answers_ok).self.reconfigurePort linux
      (open_port.reconfigurePort linux cooked_os answers_ok).os answers_ok).os.termios
      = (open_port.reconfigurePort linux cooked_os answers_ok).os.termios :=
  ⟨by decide, by decide,
    (reconfigurePort_idempotent linux open_port cooked_os answers_ok answers_ok
      (by decide) (by decide) (by decide) (by decide) (by decide) (by decide) (by decide)).1,
    (reconfigurePort_idempotent linux open_port cooked_os answers_ok answers_ok
      (by decide) (by decide) (by decide) (by decide) (by decide) (by decide) (by decide)).2.1,
    (reconfigurePort_idempotent linux open_port cooked_os answers_ok answers_ok
      (by decide) (by decide) (by decide) (by decide) (by decide) (by decide) (by decide)).2.2.1⟩

/-! ## Port configurator: unsupported values -/

theorem setup_line_unsupported (p : Platform) (s : SerialImpl)
    (hbad : line_supported s = false) (o : Termios) :
    ∃ what ∈ ["invalid char len", "invalid stop bit", "invalid parity"],
      setup_line p s o = .error (.str .invalid_argument what) := by
  obtain ⟨port, fd, is_open, xonxoff, rtscts, timeout, baudrate, parity, bytesize, stopbits,
    flowcontrol⟩ := s
  cases bytesize <;> cases stopbits <;> cases parity <;>
    simp [line_supported, bytesize_supported, stopbits_supported, parity_supported] at hbad <;>
    simp [setup_line, setup_char_len, setup_stopbits, setup_parity]

theorem setup_baud_spec (p : Platform) (s : SerialImpl) (os : Os) (k : ReconfAnswers)
    (o : Termios) :
    (setup_baud p s os k o).1.termios = os.termios ∧
    (∃ made, (setup_baud p s os k o).1.calls = os.calls ++ made ∧
      ∀ fd options, OsCall.tcsetattr fd options ∉ made) ∧
    (((standard_baud p s.baudrate_).isSome = true ∨ (p.kind ≠ .other ∧ 0 ≤ k.ioctl_ret)) →
      ∃ o', (setup_baud p s os k o).2 = .ok o') := by
  unfold setup_baud
  cases hb : standard_baud p s.baudrate_ with
  | some baud => exact ⟨rfl, ⟨[], by simp, by simp⟩, fun _ => ⟨_, rfl⟩⟩
  | none =>
    cases hk : p.kind with
    | apple =>
      by_cases hr : k.ioctl_ret < 0
      · simp only [hr, if_true]
        exact ⟨rfl, ⟨[_], rfl, by simp⟩, fun h => by simp [hk] at h; omega⟩
      · simp only [hr, if_false]
        exact ⟨rfl, ⟨[_], rfl, by simp⟩, fun _ => ⟨_, rfl⟩⟩
    | linux =>
      by_cases hr : k.ioctl_ret < 0
      · simp only [hr, if_true]
        exact ⟨rfl, ⟨[.ioctl_TIOCGSERIAL s.fd_,
          .ioctl_TIOCSSERIAL s.fd_ (k.baud_base / s.baudrate_)], by simp [Os.log], by simp⟩,
          fun h => by simp [hk] at h; omega⟩
      · simp only [hr, if_false]
        exact ⟨rfl, ⟨[.ioctl_TIOCGSERIAL s.fd_,
          .ioctl_TIOCSSERIAL s.fd_ (k.baud_base / s.baudrate_)], by simp [Os.log], by simp⟩,
          fun _ => ⟨_, rfl⟩⟩
    | other =>
      exact ⟨rfl, ⟨[], by simp, by simp⟩, fun h => by simp [hk] at h⟩

/-- C6, amended: for every line configuration whose byte size, stop bits or
parity has no branch in `reconfigurePort`, the call on a valid descriptor
throws, leaves the object and the control block of the device as they were
and never invokes `tcsetattr`; and when `tcgetattr` succeeds and the baud
rate step throws nothing (a standard rate, or a custom-baud request that
succeeds), what it throws is `invalid_argument` with the message
"invalid char len", "invalid stop bit" or "invalid parity". -/
theorem reconfigurePort_unsupported_line (p : Platform) (s : SerialImpl) (os : Os)
    (k : ReconfAnswers) (hfd : s.fd_ ≠ -1) (hbad : line_supported s = false) :
    (∃ e, (s.reconfigurePort p os k).out = .threw e) ∧
    (s.reconfigurePort p os k).self = s ∧
    (s.reconfigurePort p os k).os.termios = os.termios ∧
    (∀ fd options,
      OsCall.tcsetattr fd options ∉ calls_made os (s.reconfigurePort p os k).os) ∧
    (k.tcgetattr_ret ≠ -1 →
      ((standard_baud p s.baudrate_).isSome = true ∨ (p.kind ≠ .other ∧ 0 ≤ k.ioctl_ret)) →
      ∃ what ∈ ["invalid char len", "invalid stop bit", "invalid parity"],
        (s.reconfigurePort p os k).out = .threw (.str .invalid_argument what)) := by
  by_cases hg : k.tcgetattr_ret = -1
  · have hrec : s.reconfigurePort p os k
        = ⟨s, os.log (.tcgetattr s.fd_), .threw (.str .IOException "::tcgetattr")⟩ := by
      unfold SerialImpl.reconfigurePort
      simp [hfd, hg]
    rw [hrec]
    exact ⟨⟨_, rfl⟩, rfl, rfl, by simp [calls_made, Os.log], fun h => absurd hg h⟩
  · obtain ⟨hterm, ⟨made, hcalls, hmade⟩, hok⟩ :=
      setup_baud_spec p s (os.log (.tcgetattr s.fd_)) k
        (raw_mode p (os.log (.tcgetattr s.fd_)).termios)
    rcases hsb : setup_baud p s (os.log (.tcgetattr s.fd_)) k
      (raw_mode p (os.log (.tcgetattr s.fd_)).termios) with ⟨os', e | o'⟩
    · have hrec : s.reconfigurePort p os k = ⟨s, os', .threw e⟩ := by
        unfold SerialImpl.reconfigurePort
        simp [hfd, hg, hsb]
      rw [hsb] at hterm hcalls hok
      rw [hrec]
      refine ⟨⟨_, rfl⟩, rfl, hterm, ?_, fun _ h => ?_⟩
      · intro fd options
        have hc : os'.calls = os.calls ++ (OsCall.tcgetattr s.fd_ :: made) := by
          simpa [Os.log] using hcalls
        simp [calls_made, hc, hmade]
      · obtain ⟨o', ho'⟩ := hok h
        simp at ho'
    · obtain ⟨what, hwhat, hline⟩ := setup_line_unsupported p s hbad o'
      have hrec : s.reconfigurePort p os k
          = ⟨s, os', .threw (.str .invalid_argument what)⟩ := by
        unfold SerialImpl.reconfigurePort
        simp [hfd, hg, hsb, hline]
      rw [hsb] at hterm hcalls
      rw [hrec]
      refine ⟨⟨_, rfl⟩, rfl, hterm, ?_, fun _ _ => ⟨what, hwhat, rfl⟩⟩
      intro fd options
      have hc : os'.calls = os.calls ++ (OsCall.tcgetattr s.fd_ :: made) := by
        simpa [Os.log] using hcalls
      simp [calls_made, hc, hmade]

/-- Witness for C6, amended: the byte size 9 on an open port whose primitives
all succeed. -/
theorem reconfigurePort_unsupported_line_witness :
    bad_port.fd_ ≠ -1 ∧ line_supported bad_port = false ∧
    (∃ what ∈ ["invalid char len", "invalid stop bit", "invalid parity"],
      (bad_port.reconfigurePort linux cooked_os answers_ok).out
        = .threw (.str .invalid_argument what)) ∧
    (bad_port.reconfigurePort linux cooked_os answers_ok).os.termios = cooked_os.termios :=
  ⟨by decide, by decide,
    (reconfigurePort_unsupported_line linux bad_port cooked_os answers_ok
      (by decide) (by decide)).2.2.2.2 (by decide) (Or.inl (by decide)),
    (reconfigurePort_unsupported_line linux bad_port cooked_os answers_ok
      (by decide) (by decide)).2.2.1⟩

/-- C6 as stated fails: with the byte size 9 on an open port and `tcgetattr`
answering -1, `reconfigurePort` throws `IOException ("::tcgetattr")`, which is
not an `invalid_argument`. -/
theorem reconfigurePort_unsupported_line_io_error :
    bad_port.is_open_ = true ∧ bad_port.fd_ ≠ -1 ∧
    bytesize_supported bad_port.bytesize_ = false ∧
    (bad_port.reconfigurePort linux cooked_os { answers_ok with tcgetattr_ret := -1 }).out
      = .threw (.str .IOException "::tcgetattr") ∧
    ¬ ∃ what, (bad_port.reconfigurePort linux cooked_os
      { answers_ok with tcgetattr_ret := -1 }).out = .threw (.str .invalid_argument what) := by
  refine ⟨by decide, by decide, by decide, by decide, ?_⟩
  rintro ⟨what, h⟩
  have h' : (bad_port.reconfigurePort linux cooked_os
      { answers_ok with tcgetattr_ret := -1 }).out = .threw (.str .IOException "::tcgetattr") := by
    decide
  rw [h'] at h
  simp at h

end Serial
